import Mathlib

/-! # Alert relay service (`server.js`)

A shallow embedding of the request-handling code of `server.js` and the
properties of it that the specification states.

* JavaScript strings are sequences of UTF-16 code units (`JSString`).
* Values that arrive in a JSON request body are `JSValue`s.
* The process-wide cooldown registry `lastEventAt` is threaded explicitly
  through `checkCooldown` and the three handlers.
* Everything outside the process (the HTTP client behind `fetch`, the clock,
  the library routines for base64 decoding and Unicode lower-casing) is a
  field of `World` or an argument.
* Every handler returns the registry after the request, the HTTP response,
  and the list of helper invocations it made, in order.
-/

namespace AlertRelay

/-! ## JavaScript strings and values -/

/-- A JavaScript string: the sequence of its UTF-16 code units. -/
abbrev JSString := List Nat

/-- UTF-16 code units of one Unicode scalar value. -/
def utf16Char (c : Char) : List Nat :=
  if c.toNat < 0x10000 then [c.toNat]
  else [0xD800 + (c.toNat - 0x10000) / 0x400, 0xDC00 + (c.toNat - 0x10000) % 0x400]

/-- The JavaScript string written by a literal. -/
def utf16 (s : String) : JSString :=
  s.toList.flatMap utf16Char

deriving instance DecidableEq for Except

/-- A value of a parsed JSON body, or `undefined` for a property that is
absent. A Number is represented by its canonical rendering (`Number::toString`),
which determines everything the program observes of it: `0` and `-0` both
render as `0` and are the only falsy numbers JSON can produce. -/
inductive JSValue where
  | undefined
  | null
  | bool (b : Bool)
  | num (repr : JSString)
  | str (s : JSString)
  | arr (items : List JSValue)
  | obj (props : List (JSString × JSValue))

/-- ToBoolean. -/
def toBoolean : JSValue → Bool
  | .undefined => false
  | .null => false
  | .bool b => b
  | .num r => !(r == utf16 "0" || r == utf16 "NaN")
  | .str s => !s.isEmpty
  | .arr _ => true
  | .obj _ => true

/-- The operator `a || b`. -/
def jsOr (a b : JSValue) : JSValue :=
  if toBoolean a then a else b

/-- Message of the TypeError raised when an object has no usable `toString`
or `valueOf`. -/
def typeErrorMessage : JSString :=
  utf16 "Cannot convert object to primitive value"

/-- Whether the value is `undefined` or `null`. -/
def isNullish : JSValue → Bool
  | .undefined => true
  | .null => true
  | _ => false

mutual
/-- The conversion `String(v)`: either the text or the message of the error
thrown. A plain object renders as `[object Object]` through
`Object.prototype.toString`, unless it has an own property `toString`: a JSON
value is never callable, `Object.prototype.valueOf` returns the object itself,
and the conversion throws. An array renders as `join(",")`. -/
def toStringJS : JSValue → Except JSString JSString
  | .undefined => .ok (utf16 "undefined")
  | .null => .ok (utf16 "null")
  | .bool b => .ok (if b then utf16 "true" else utf16 "false")
  | .num r => .ok r
  | .str s => .ok s
  | .arr xs => joinJS xs
  | .obj ps =>
    if ps.any (fun p => p.1 == utf16 "toString") then .error typeErrorMessage
    else .ok (utf16 "[object Object]")
/-- The method `Array.prototype.join` with separator `,`: an element that is
`undefined` or `null` contributes the empty string. -/
def joinJS : List JSValue → Except JSString JSString
  | [] => .ok []
  | x :: rest =>
    match (if isNullish x then .ok [] else toStringJS x) with
    | .error e => .error e
    | .ok a =>
      match joinJS rest with
      | .error e => .error e
      | .ok b => .ok (if rest.isEmpty then a else a ++ utf16 "," ++ b)
end

/-- White space and line terminators, as `String.prototype.trim` strips them. -/
def isWhiteSpace (c : Nat) : Bool :=
  c == 0x09 || c == 0x0A || c == 0x0B || c == 0x0C || c == 0x0D || c == 0x20 ||
  c == 0xA0 || c == 0x1680 || (0x2000 ≤ c && c ≤ 0x200A) || c == 0x2028 ||
  c == 0x2029 || c == 0x202F || c == 0x205F || c == 0x3000 || c == 0xFEFF

/-- The method `String.prototype.trim`. -/
def trim (s : JSString) : JSString :=
  ((s.dropWhile isWhiteSpace).reverse.dropWhile isWhiteSpace).reverse

/-- The call `s.slice(0, e)` for an integer `e`: a negative end counts from
the end of the string. -/
def slice0 (s : JSString) (e : Int) : JSString :=
  if e < 0 then s.take ((s.length : Int) + e).toNat else s.take e.toNat

/-- The method `String.prototype.includes`. -/
def includes (s pat : JSString) : Bool :=
  s.tails.any (fun t => pat.isPrefixOf t)

/-- Lower-casing of one ASCII code unit. -/
def asciiLower (c : Nat) : Nat :=
  if 65 ≤ c ∧ c ≤ 90 then c + 32 else c

/-- Decimal rendering of an integral Number below `10^21` in magnitude. -/
def numberToString (n : Int) : JSString :=
  utf16 (toString n)

/-! ## The world outside the process -/

/-- The three requests the service makes through `fetch`. -/
inductive FetchRequest where
  | webhook (url text : JSString)
  | telegramMessage (token chatId text : JSString)
  | telegramDocument (token chatId caption : JSString) (buffer : List Nat)
      (mimeType fileName : JSString)
deriving DecidableEq

/-- What `fetch` resolves to: `ok`, `status`, and the body read by `text()`. -/
structure FetchResponse where
  ok : Bool
  status : Nat
  text : JSString
deriving DecidableEq

/-- Everything the handlers consult outside the process. -/
structure World where
  /-- The HTTP client: a response, or the message of the error it rejects with. -/
  fetch : FetchRequest → Except JSString FetchResponse
  /-- The decoder `Buffer.from(s, "base64")`. -/
  base64Decode : JSString → List Nat
  /-- The method `String.prototype.toLowerCase` on strings that are not pure ASCII. -/
  unicodeLower : JSString → JSString

/-- The method `String.prototype.toLowerCase`. -/
def toLowerCase (w : World) (s : JSString) : JSString :=
  if s.all (fun c => c < 128) then s.map asciiLower else w.unicodeLower s

/-- The environment variables the service reads. -/
structure ProcessEnv where
  APP_SECRET : Option JSString
  NOTIFY_WEBHOOK_URL : Option JSString
  TELEGRAM_BOT_TOKEN : Option JSString
  TELEGRAM_CHAT_ID : Option JSString

/-- The expression `process.env.X || ""`. -/
def orEmpty (v : Option JSString) : JSString :=
  match v with
  | some s => if s.isEmpty then [] else s
  | none => []

/-! ## Configuration (`server.js` lines 9 to 28) -/

def rawSecret (env : ProcessEnv) : JSString :=
  trim (orEmpty env.APP_SECRET)

def APP_SECRET (env : ProcessEnv) : JSString :=
  if !(rawSecret env).isEmpty && rawSecret env != utf16 "change-this-secret"
  then rawSecret env else []

def NOTIFY_WEBHOOK_URL (env : ProcessEnv) : JSString := orEmpty env.NOTIFY_WEBHOOK_URL

def TELEGRAM_BOT_TOKEN (env : ProcessEnv) : JSString := orEmpty env.TELEGRAM_BOT_TOKEN

def TELEGRAM_CHAT_ID (env : ProcessEnv) : JSString := orEmpty env.TELEGRAM_CHAT_ID

def MAX_VOICE_NOTE_BYTES : Nat := 12 * 1024 * 1024

/-- The three event types, the keys of both tables. -/
inductive EventType where
  | call
  | mood
  | voice
deriving DecidableEq, Repr

def cooldownMsByType : EventType → Int
  | .call => 10000
  | .mood => 3000
  | .voice => 5000

/-- The cooldown registry: per type, the time of the last accepted event. -/
structure Registry where
  call : Int
  mood : Int
  voice : Int
deriving DecidableEq, Repr

/-- The registry at process start. -/
def lastEventAt : Registry := ⟨0, 0, 0⟩

/-- The read `lastEventAt[type]`. -/
def Registry.get (r : Registry) : EventType → Int
  | .call => r.call
  | .mood => r.mood
  | .voice => r.voice

/-- The write `lastEventAt[type] = now`. -/
def Registry.set (r : Registry) (t : EventType) (now : Int) : Registry :=
  match t with
  | .call => { r with call := now }
  | .mood => { r with mood := now }
  | .voice => { r with voice := now }

/-- The expression `x || 0` on a Number. -/
def orZero (x : Int) : Int :=
  if x = 0 then 0 else x

/-! ## Outbound senders (`server.js` lines 37 to 95) -/

/-- The function `sendWebhookAlert({ text })`. -/
def sendWebhookAlert (env : ProcessEnv) (w : World) (text : JSString) : Except JSString Unit :=
  match w.fetch (.webhook (NOTIFY_WEBHOOK_URL env) text) with
  | .error e => .error e
  | .ok notifyRes =>
    if !notifyRes.ok then
      .error (utf16 "Webhook failed: " ++ numberToString notifyRes.status ++ utf16 " " ++
        slice0 notifyRes.text 300)
    else .ok ()

def sendTelegramAlert (env : ProcessEnv) (w : World) (text : JSString) : Except JSString Unit :=
  match w.fetch (.telegramMessage (TELEGRAM_BOT_TOKEN env) (TELEGRAM_CHAT_ID env) text) with
  | .error e => .error e
  | .ok telegramRes =>
    if !telegramRes.ok then
      .error (utf16 "Telegram failed: " ++ numberToString telegramRes.status ++ utf16 " " ++
        slice0 telegramRes.text 300)
    else .ok ()

/-- The `type` of a `new Blob(parts, { type })`: empty when the given type holds
a code unit outside U+0020 to U+007E, otherwise its ASCII lower-casing. -/
def blobType (type : JSString) : JSString :=
  if type.all (fun c => 0x20 ≤ c && c ≤ 0x7E) then type.map asciiLower else []

/-- The function `sendTelegramAudioDocument`; the request records the type of
the `Blob` built from `mimeType || "application/octet-stream"`. -/
def sendTelegramAudioDocument (env : ProcessEnv) (w : World) (buffer : List Nat)
    (mimeType fileName caption : JSString) : Except JSString Unit :=
  match w.fetch (.telegramDocument (TELEGRAM_BOT_TOKEN env) (TELEGRAM_CHAT_ID env) caption buffer
      (blobType (if mimeType.isEmpty then utf16 "application/octet-stream" else mimeType))
      fileName) with
  | .error e => .error e
  | .ok telegramRes =>
    if !telegramRes.ok then
      .error (utf16 "Telegram file upload failed: " ++ numberToString telegramRes.status ++
        utf16 " " ++ slice0 telegramRes.text 300)
    else .ok ()

/-! ## Shared helpers (`server.js` lines 97 to 137) -/

/-- The comparison `v === s` against a string. -/
def strictEqString (v : JSValue) (s : JSString) : Bool :=
  match v with
  | .str t => t == s
  | _ => false

def ensureAuthorized (env : ProcessEnv) (secret : JSValue) : Bool :=
  (APP_SECRET env).isEmpty || strictEqString secret (APP_SECRET env)

def safeText (value fallback : JSValue) (maxLength : Int) : Except JSString JSString :=
  match toStringJS (jsOr value fallback) with
  | .error e => .error e
  | .ok s => .ok (slice0 (trim s) maxLength)

/-- The object `checkCooldown` returns. -/
structure Cooldown where
  ok : Bool
  retryAfterMs : Int
deriving DecidableEq, Repr

/-- The function `checkCooldown(type)`, with the reading `now` of `Date.now()`
and the registry before the call; returns its result and the registry after. -/
def checkCooldown (type : EventType) (now : Int) (reg : Registry) : Cooldown × Registry :=
  let waitMs := orZero (cooldownMsByType type)
  let lastAt := orZero (reg.get type)
  if now - lastAt < waitMs then
    (⟨false, waitMs - (now - lastAt)⟩, reg)
  else
    (⟨true, 0⟩, reg.set type now)

/-- A helper invocation, as recorded in a handler's trace. -/
inductive Call where
  | checkCooldown (type : EventType)
  | sendWebhookAlert (text : JSString)
  | sendTelegramAlert (text : JSString)
  | sendTelegramAudioDocument (buffer : List Nat) (mimeType fileName caption : JSString)
  | consoleLog (text : JSString)
deriving DecidableEq

/-- Whether the invocation is one of the three outbound senders. -/
def Call.isSender : Call → Bool
  | .sendWebhookAlert _ => true
  | .sendTelegramAlert _ => true
  | .sendTelegramAudioDocument _ _ _ _ => true
  | _ => false

/-- The object `dispatchTextAlert` resolves to. -/
structure DispatchResult where
  via : JSString
  note : Option JSString
deriving DecidableEq

/-- The function `dispatchTextAlert(text)`: its result (or the message of the
error it rejects with) and the invocations it made. -/
def dispatchTextAlert (env : ProcessEnv) (w : World) (text : JSString) :
    Except JSString DispatchResult × List Call :=
  if !(TELEGRAM_BOT_TOKEN env).isEmpty && !(TELEGRAM_CHAT_ID env).isEmpty then
    match sendTelegramAlert env w text with
    | .error e => (.error e, [.sendTelegramAlert text])
    | .ok _ => (.ok ⟨utf16 "telegram", none⟩, [.sendTelegramAlert text])
  else if !(NOTIFY_WEBHOOK_URL env).isEmpty then
    match sendWebhookAlert env w text with
    | .error e => (.error e, [.sendWebhookAlert text])
    | .ok _ => (.ok ⟨utf16 "webhook", none⟩, [.sendWebhookAlert text])
  else
    (.ok ⟨utf16 "server-log",
        some (utf16 "Set TELEGRAM_BOT_TOKEN + TELEGRAM_CHAT_ID for phone push notifications.")⟩,
      [.consoleLog text])

/-! ## Responses -/

/-- An HTTP response: the status and the fields of its JSON body. -/
structure Response where
  status : Nat
  ok : Bool
  error : Option JSString
  retryAfterMs : Option Int
  via : Option JSString
  note : Option JSString
  details : Option JSString
deriving DecidableEq

def Response.unauthorized : Response :=
  ⟨401, false, some (utf16 "Unauthorized request"), none, none, none, none⟩

def Response.tooManyRequests (retryAfterMs : Int) : Response :=
  ⟨429, false, some (utf16 "Too many requests, please wait a few seconds."),
    some retryAfterMs, none, none, none⟩

def Response.invalid (status : Nat) (error : JSString) : Response :=
  ⟨status, false, some error, none, none, none, none⟩

/-- The response of the `catch` clause of every handler. -/
def Response.serverError (message : JSString) : Response :=
  ⟨500, false, some (utf16 "Unexpected server error"), none, none, none, some message⟩

/-- The response `res.json({ ok: true, ...result })`. -/
def Response.success (result : DispatchResult) : Response :=
  ⟨200, true, none, none, some result.via, result.note, none⟩

/-- What one request does: the registry after it, the response, and the helper
invocations in order. -/
structure Outcome where
  registry : Registry
  response : Response
  calls : List Call
deriving DecidableEq

/-! ## `POST /api/call-assistant` (`server.js` lines 162 to 192) -/

/-- The destructured body `{ name, message, secret }`. -/
structure CallBody where
  name : JSValue
  message : JSValue
  secret : JSValue

def callAssistant (env : ProcessEnv) (w : World) (now : Int) (body : CallBody)
    (reg : Registry) : Outcome :=
  if !ensureAuthorized env body.secret then
    ⟨reg, Response.unauthorized, []⟩
  else
    let cooldown := checkCooldown .call now reg
    if !cooldown.1.ok then
      ⟨cooldown.2, Response.tooManyRequests cooldown.1.retryAfterMs, [.checkCooldown .call]⟩
    else
      match safeText body.name (.str (utf16 "Her")) 50 with
      | .error e => ⟨cooldown.2, Response.serverError e, [.checkCooldown .call]⟩
      | .ok safeName =>
        match safeText body.message (.str (utf16 "Needs your help right now.")) 180 with
        | .error e => ⟨cooldown.2, Response.serverError e, [.checkCooldown .call]⟩
        | .ok safeMessage =>
          let text := utf16 "Assistant Alert: " ++ safeName ++
            utf16 " pressed the help button. Message: " ++ safeMessage
          match dispatchTextAlert env w text with
          | (.error e, calls) =>
            ⟨cooldown.2, Response.serverError e, .checkCooldown .call :: calls⟩
          | (.ok result, calls) =>
            ⟨cooldown.2, Response.success result, .checkCooldown .call :: calls⟩

/-! ## `POST /api/mood-checkin` (`server.js` lines 194 to 271) -/

/-- One row of `moodMap`. -/
structure MoodEntry where
  label : JSString
  emoji : JSString
  defaultMessage : JSString
deriving DecidableEq

/-- The own properties of the object literal `moodMap`, with the string
literals exactly as the source file holds them. -/
def moodMap : List (JSString × MoodEntry) :=
  [ (utf16 "happy",
      ⟨utf16 "happy", [0xF0, 0x178, 0x2DC, 0x160],
        utf16 "I" ++ [0xE2, 0x20AC, 0x2122] ++
          utf16 "m feeling happy and wanted to share it with you."⟩),
    (utf16 "sad",
      ⟨utf16 "sad", [0xF0, 0x178, 0x2DC, 0x201D],
        utf16 "I" ++ [0xE2, 0x20AC, 0x2122] ++
          utf16 "m feeling low right now. Please talk to me when free."⟩),
    (utf16 "stressed",
      ⟨utf16 "stressed", [0xF0, 0x178, 0x2DC, 0xA3],
        utf16 "I" ++ [0xE2, 0x20AC, 0x2122] ++
          utf16 "m feeling stressed. I need your calm voice."⟩),
    (utf16 "angry",
      ⟨utf16 "angry", [0xF0, 0x178, 0x2DC, 0xA0],
        utf16 "I" ++ [0xE2, 0x20AC, 0x2122] ++
          utf16 "m angry right now and need your support."⟩),
    (utf16 "thokolo-panchayti",
      ⟨utf16 "thokolo panchayti", [0xF0, 0x178, 0xA4, 0xAD],
        utf16 "I have a panchayti situation. I need you to hear me out."⟩),
    (utf16 "thokolo panchayti",
      ⟨utf16 "thokolo panchayti", [0xF0, 0x178, 0xA4, 0xAD],
        utf16 "I have a panchayti situation. I need you to hear me out."⟩) ]

/-- The property names every object literal inherits from `Object.prototype`. -/
def objectPrototypeKeys : List JSString :=
  [ utf16 "constructor", utf16 "__defineGetter__", utf16 "__defineSetter__",
    utf16 "hasOwnProperty", utf16 "__lookupGetter__", utf16 "__lookupSetter__",
    utf16 "isPrototypeOf", utf16 "propertyIsEnumerable", utf16 "toString",
    utf16 "valueOf", utf16 "__proto__", utf16 "toLocaleString" ]

/-- What the read `moodMap[moodKey]` yields. -/
inductive MoodProperty where
  /-- A row of the table. -/
  | own (entry : MoodEntry)
  /-- A member of `Object.prototype` (a built-in function, or the prototype
  object itself for `__proto__`): truthy, with no `label`, `emoji` or
  `defaultMessage`. -/
  | inherited (key : JSString)
  | undefined
deriving DecidableEq

/-- The read `moodMap[moodKey]`: own properties first, then the prototype. -/
def moodMapGet (moodKey : JSString) : MoodProperty :=
  match moodMap.lookup moodKey with
  | some entry => .own entry
  | none => if moodKey ∈ objectPrototypeKeys then .inherited moodKey else .undefined

/-- The reads `chosenMood.label`, `chosenMood.emoji`, `chosenMood.defaultMessage`. -/
def MoodProperty.label : MoodProperty → JSValue
  | .own entry => .str entry.label
  | _ => .undefined

def MoodProperty.emoji : MoodProperty → JSValue
  | .own entry => .str entry.emoji
  | _ => .undefined

def MoodProperty.defaultMessage : MoodProperty → JSValue
  | .own entry => .str entry.defaultMessage
  | _ => .undefined

/-- A substitution `${v}` of a template literal, for a string or `undefined`. -/
def interpolate : JSValue → JSString
  | .str s => s
  | _ => utf16 "undefined"

/-- The destructured body `{ name, mood, moodMessage, secret }`. -/
structure MoodBody where
  name : JSValue
  mood : JSValue
  moodMessage : JSValue
  secret : JSValue

/-- The error text of the 400 answer. -/
def moodError : JSString :=
  utf16 "Mood must be one of: happy, sad, stressed, angry, thokolo panchayti."

def moodCheckin (env : ProcessEnv) (w : World) (now : Int) (body : MoodBody)
    (reg : Registry) : Outcome :=
  if !ensureAuthorized env body.secret then
    ⟨reg, Response.unauthorized, []⟩
  else
    let cooldown := checkCooldown .mood now reg
    if !cooldown.1.ok then
      ⟨cooldown.2, Response.tooManyRequests cooldown.1.retryAfterMs, [.checkCooldown .mood]⟩
    else
      match toStringJS (jsOr body.mood (.str [])) with
      | .error e => ⟨cooldown.2, Response.serverError e, [.checkCooldown .mood]⟩
      | .ok moodText =>
        let moodKey := toLowerCase w moodText
        let chosenMood := moodMapGet moodKey
        if chosenMood = .undefined then
          ⟨cooldown.2, Response.invalid 400 moodError, [.checkCooldown .mood]⟩
        else
          match safeText body.name (.str (utf16 "Bhaviiii")) 50 with
          | .error e => ⟨cooldown.2, Response.serverError e, [.checkCooldown .mood]⟩
          | .ok safeName =>
            match safeText body.moodMessage chosenMood.defaultMessage 220 with
            | .error e => ⟨cooldown.2, Response.serverError e, [.checkCooldown .mood]⟩
            | .ok safeMoodMessage =>
              let text := utf16 "Mood Check-in: " ++ safeName ++ utf16 " is feeling " ++
                interpolate chosenMood.label ++ utf16 " " ++ interpolate chosenMood.emoji ++
                utf16 ". Message: " ++ safeMoodMessage
              match dispatchTextAlert env w text with
              | (.error e, calls) =>
                ⟨cooldown.2, Response.serverError e, .checkCooldown .mood :: calls⟩
              | (.ok result, calls) =>
                ⟨cooldown.2, Response.success result, .checkCooldown .mood :: calls⟩

/-! ## `POST /api/voice-note` (`server.js` lines 273 to 335) -/

/-- The destructured body `{ name, secret, audioBase64, mimeType }`. -/
structure VoiceBody where
  name : JSValue
  secret : JSValue
  audioBase64 : JSValue
  mimeType : JSValue

/-- The test `typeof v === "string"`. -/
def isString : JSValue → Bool
  | .str _ => true
  | _ => false

/-- The code units of a value known to be a string. -/
def stringOf : JSValue → JSString
  | .str s => s
  | _ => []

/-- The file extension chosen from the MIME type (lines 310 to 313). -/
def voiceExt (safeMimeType : JSString) : JSString :=
  let ext := utf16 "webm"
  let ext := if includes safeMimeType (utf16 "ogg") then utf16 "ogg" else ext
  let ext := if includes safeMimeType (utf16 "mpeg") || includes safeMimeType (utf16 "mp3")
    then utf16 "mp3" else ext
  let ext := if includes safeMimeType (utf16 "mp4") || includes safeMimeType (utf16 "m4a")
    then utf16 "m4a" else ext
  ext

/-- The voice-note handler; `now` is the clock reading inside `checkCooldown`,
`fileNow` the later reading that names the file. -/
def voiceNote (env : ProcessEnv) (w : World) (now fileNow : Int) (body : VoiceBody)
    (reg : Registry) : Outcome :=
  if !ensureAuthorized env body.secret then
    ⟨reg, Response.unauthorized, []⟩
  else
    let cooldown := checkCooldown .voice now reg
    if !cooldown.1.ok then
      ⟨cooldown.2, Response.tooManyRequests cooldown.1.retryAfterMs, [.checkCooldown .voice]⟩
    else if !toBoolean body.audioBase64 || !isString body.audioBase64 then
      ⟨cooldown.2, Response.invalid 400 (utf16 "Missing recorded audio."), [.checkCooldown .voice]⟩
    else
      match safeText body.name (.str (utf16 "Bhaviiii")) 50 with
      | .error e => ⟨cooldown.2, Response.serverError e, [.checkCooldown .voice]⟩
      | .ok safeName =>
        match safeText body.mimeType (.str (utf16 "audio/webm")) 80 with
        | .error e => ⟨cooldown.2, Response.serverError e, [.checkCooldown .voice]⟩
        | .ok mimeText =>
          let safeMimeType := toLowerCase w mimeText
          let buffer := w.base64Decode (stringOf body.audioBase64)
          if buffer.length = 0 then
            ⟨cooldown.2, Response.invalid 400 (utf16 "Invalid audio payload."),
              [.checkCooldown .voice]⟩
          else if buffer.length > MAX_VOICE_NOTE_BYTES then
            ⟨cooldown.2,
              Response.invalid 413 (utf16 "Voice note is too large. Keep it under 12 MB."),
              [.checkCooldown .voice]⟩
          else if !(TELEGRAM_BOT_TOKEN env).isEmpty && !(TELEGRAM_CHAT_ID env).isEmpty then
            let fileName := utf16 "voice-note-" ++ numberToString fileNow ++ utf16 "." ++
              voiceExt safeMimeType
            let caption := utf16 "Voice note from " ++ safeName
            match sendTelegramAudioDocument env w buffer safeMimeType fileName caption with
            | .error e =>
              ⟨cooldown.2, Response.serverError e,
                [.checkCooldown .voice,
                  .sendTelegramAudioDocument buffer safeMimeType fileName caption]⟩
            | .ok _ =>
              ⟨cooldown.2, Response.success ⟨utf16 "telegram", none⟩,
                [.checkCooldown .voice,
                  .sendTelegramAudioDocument buffer safeMimeType fileName caption]⟩
          else
            let text := utf16 "Voice note received from " ++ safeName ++
              utf16 ", but Telegram is not configured for audio delivery."
            match dispatchTextAlert env w text with
            | (.error e, calls) =>
              ⟨cooldown.2, Response.serverError e, .checkCooldown .voice :: calls⟩
            | (.ok result, calls) =>
              ⟨cooldown.2, Response.success result, .checkCooldown .voice :: calls⟩

/-! ## Sequences of rate-limiter calls -/

/-- Runs `checkCooldown` on every request in order, each with its own clock
reading, and returns the accepted ones in order. -/
def acceptedEvents (reg : Registry) : List (EventType × Int) → List (EventType × Int)
  | [] => []
  | (type, now) :: rest =>
    let r := checkCooldown type now reg
    if r.1.ok then (type, now) :: acceptedEvents r.2 rest else acceptedEvents r.2 rest

/-- The timestamps of the events of one type, in order. -/
def timesOf (type : EventType) (events : List (EventType × Int)) : List Int :=
  (events.filter (fun e => e.1 = type)).map Prod.snd

/-! ## Sample configurations and worlds -/

/-- No variable set: no secret, no channel. -/
def openEnv : ProcessEnv := ⟨none, none, none, none⟩

/-- A secret and nothing else. -/
def securedEnv : ProcessEnv := ⟨some (utf16 "s3cret"), none, none, none⟩

/-- Bot credentials and a webhook URL together. -/
def botEnv : ProcessEnv :=
  ⟨none, some (utf16 "https://hook.example/in"), some (utf16 "123:abc"), some (utf16 "42")⟩

/-- A world in which every outbound request succeeds; the stand-in decoder
yields one byte per code unit. -/
def calmWorld : World :=
  ⟨fun _ => .ok ⟨true, 200, []⟩, fun s => s, fun s => s⟩

/-- A failing world: every outbound request is answered 503. -/
def downWorld : World :=
  ⟨fun _ => .ok ⟨false, 503, utf16 "down"⟩, fun s => s, fun s => s⟩

/-- A webhook URL and nothing else. -/
def hookEnv : ProcessEnv :=
  ⟨none, some (utf16 "https://hook.example/in"), none, none⟩

/-! ## The sanitization steps as the specification words them -/

/-- Whether a property is absent from the body. -/
def isAbsent : JSValue → Bool
  | .undefined => true
  | _ => false

/-- The steps of the specification, in its order: coerce the value to text; if
that text is empty or the value is absent, take the fallback instead; trim
surrounding white space; keep the first `max` characters. -/
def sanitizeInOrder (value fallback : JSValue) (max : Int) : Except JSString JSString :=
  match toStringJS value with
  | .error e => .error e
  | .ok text =>
    match (if text.isEmpty || isAbsent value then toStringJS fallback else .ok text) with
    | .error e => .error e
    | .ok chosen => .ok ((trim chosen).take max.toNat)

/-- The chosen text as the truncation law words it: the value, or the fallback
when the value is empty or absent. -/
def chosenTextInWords (value fallback : JSValue) : Except JSString JSString :=
  match toStringJS value with
  | .error e => .error e
  | .ok text => if text.isEmpty || isAbsent value then toStringJS fallback else .ok text

end AlertRelay

namespace AlertRelay

/-! ## Basic facts -/

@[simp] theorem orZero_eq (x : Int) : orZero x = x := by
  unfold orZero
  split <;> simp_all

theorem checkCooldown_of_lt {type : EventType} {now : Int} {reg : Registry}
    (h : now - reg.get type < cooldownMsByType type) :
    checkCooldown type now reg =
      (⟨false, cooldownMsByType type - (now - reg.get type)⟩, reg) := by
  simp [checkCooldown, h]

theorem checkCooldown_of_ge {type : EventType} {now : Int} {reg : Registry}
    (h : cooldownMsByType type ≤ now - reg.get type) :
    checkCooldown type now reg = (⟨true, 0⟩, reg.set type now) := by
  simp [checkCooldown, not_lt.mpr h]

theorem Registry.get_set_same (reg : Registry) (t : EventType) (now : Int) :
    (reg.set t now).get t = now := by
  cases t <;> rfl

theorem Registry.get_set_other (reg : Registry) {t u : EventType} (now : Int) (h : u ≠ t) :
    (reg.set t now).get u = reg.get u := by
  cases t <;> cases u <;> first | rfl | exact absurd rfl h

/-! ## The rate limiter -/

/-- C1: inside the cooldown window `checkCooldown` refuses with the remaining
wait, which is positive, and returns the registry it was given; each handler,
for an authorized request of its type, then answers 429 carrying that wait,
with the registry unchanged and no sender invoked. -/
theorem checkCooldown_rejects_inside_window (type : EventType) (now : Int) (reg : Registry)
    (h : now - reg.get type < cooldownMsByType type) :
    (checkCooldown type now reg).1.ok = false ∧
    (checkCooldown type now reg).1.retryAfterMs = cooldownMsByType type - (now - reg.get type) ∧
    0 < (checkCooldown type now reg).1.retryAfterMs ∧
    (checkCooldown type now reg).2 = reg ∧
    (∀ env w (body : CallBody), type = .call → ensureAuthorized env body.secret = true →
      (callAssistant env w now body reg).response.status = 429 ∧
      (callAssistant env w now body reg).response.ok = false ∧
      (callAssistant env w now body reg).response.retryAfterMs =
        some (cooldownMsByType type - (now - reg.get type)) ∧
      (callAssistant env w now body reg).registry = reg ∧
      (callAssistant env w now body reg).calls = [.checkCooldown .call]) ∧
    (∀ env w (body : MoodBody), type = .mood → ensureAuthorized env body.secret = true →
      (moodCheckin env w now body reg).response.status = 429 ∧
      (moodCheckin env w now body reg).response.ok = false ∧
      (moodCheckin env w now body reg).response.retryAfterMs =
        some (cooldownMsByType type - (now - reg.get type)) ∧
      (moodCheckin env w now body reg).registry = reg ∧
      (moodCheckin env w now body reg).calls = [.checkCooldown .mood]) ∧
    (∀ env w fileNow (body : VoiceBody), type = .voice →
      ensureAuthorized env body.secret = true →
      (voiceNote env w now fileNow body reg).response.status = 429 ∧
      (voiceNote env w now fileNow body reg).response.ok = false ∧
      (voiceNote env w now fileNow body reg).response.retryAfterMs =
        some (cooldownMsByType type - (now - reg.get type)) ∧
      (voiceNote env w now fileNow body reg).registry = reg ∧
      (voiceNote env w now fileNow body reg).calls = [.checkCooldown .voice]) := by
  have hc := checkCooldown_of_lt h
  refine ⟨by rw [hc], by rw [hc], by rw [hc]; show 0 < _ - _; omega, by rw [hc], ?_, ?_, ?_⟩
  · intro env w body ht ha
    subst ht
    simp [callAssistant, ha, hc, Response.tooManyRequests]
  · intro env w body ht ha
    subst ht
    simp [moodCheckin, ha, hc, Response.tooManyRequests]
  · intro env w fileNow body ht ha
    subst ht
    simp [voiceNote, ha, hc, Response.tooManyRequests]

/-- Witness for C1: a second call request 4 s after one accepted at 20 s. -/
theorem checkCooldown_rejects_inside_window_witness :
    (24000 : Int) - (Registry.mk 20000 0 0).get .call < cooldownMsByType .call ∧
    (checkCooldown .call 24000 ⟨20000, 0, 0⟩).1.retryAfterMs = 6000 ∧
    (callAssistant openEnv calmWorld 24000 ⟨.undefined, .undefined, .undefined⟩
      ⟨20000, 0, 0⟩).response.status = 429 :=
  ⟨by decide,
    (checkCooldown_rejects_inside_window .call 24000 ⟨20000, 0, 0⟩ (by decide)).2.1,
    ((checkCooldown_rejects_inside_window .call 24000 ⟨20000, 0, 0⟩ (by decide)).2.2.2.2.1
      openEnv calmWorld ⟨.undefined, .undefined, .undefined⟩ rfl (by decide)).1⟩

/-- C2: at or beyond the cooldown (equality included) `checkCooldown` accepts
with `retryAfterMs = 0`, stores `now` for its type and leaves the other two
entries as they were. -/
theorem checkCooldown_accepts_outside_window (type : EventType) (now : Int) (reg : Registry)
    (h : cooldownMsByType type ≤ now - reg.get type) :
    (checkCooldown type now reg).1.ok = true ∧
    (checkCooldown type now reg).1.retryAfterMs = 0 ∧
    (checkCooldown type now reg).2.get type = now ∧
    ∀ other, other ≠ type → (checkCooldown type now reg).2.get other = reg.get other := by
  rw [checkCooldown_of_ge h]
  exact ⟨rfl, rfl, Registry.get_set_same reg type now,
    fun other ho => Registry.get_set_other reg now ho⟩

/-- Witness for C2: a mood request exactly 3000 ms after the last accepted one. -/
theorem checkCooldown_accepts_outside_window_witness :
    cooldownMsByType .mood ≤ (8000 : Int) - (Registry.mk 7 5000 9).get .mood ∧
    (checkCooldown .mood 8000 ⟨7, 5000, 9⟩).1.ok = true ∧
    (checkCooldown .mood 8000 ⟨7, 5000, 9⟩).2.get .mood = 8000 :=
  ⟨by decide,
    (checkCooldown_accepts_outside_window .mood 8000 ⟨7, 5000, 9⟩ (by decide)).1,
    (checkCooldown_accepts_outside_window .mood 8000 ⟨7, 5000, 9⟩ (by decide)).2.2.1⟩

theorem timesOf_acceptedEvents_chain (type : EventType) (events : List (EventType × Int))
    (reg : Registry) :
    List.Chain (fun a b : Int => cooldownMsByType type ≤ b - a) (reg.get type)
      (timesOf type (acceptedEvents reg events)) := by
  induction events generalizing reg with
  | nil => exact List.Chain.nil
  | cons e rest ih =>
    obtain ⟨t, now⟩ := e
    by_cases hlt : now - reg.get t < cooldownMsByType t
    · have hc := checkCooldown_of_lt hlt
      simpa [acceptedEvents, hc] using ih reg
    · have hge : cooldownMsByType t ≤ now - reg.get t := not_lt.mp hlt
      have hc := checkCooldown_of_ge hge
      by_cases ht : t = type
      · subst ht
        have h2 := ih (reg.set t now)
        rw [Registry.get_set_same] at h2
        have h3 : List.Chain (fun a b : Int => cooldownMsByType t ≤ b - a) (reg.get t)
            (now :: timesOf t (acceptedEvents (reg.set t now) rest)) :=
          List.Chain.cons hge h2
        simpa [acceptedEvents, hc, timesOf, List.filter_cons] using h3
      · have h2 := ih (reg.set t now)
        rw [Registry.get_set_other reg now (Ne.symm ht)] at h2
        simpa [acceptedEvents, hc, timesOf, List.filter_cons, ht] using h2

/-- C3: from the initial registry, whatever the requests and their clock
readings, the accepted events of one type are spaced by at least that type's
cooldown (call 10000 ms, mood 3000 ms, voice 5000 ms): each accepted timestamp
exceeds the previous accepted timestamp of its type by the cooldown or more. -/
theorem accepted_events_spaced (events : List (EventType × Int)) (type : EventType) :
    List.Chain' (fun a b : Int => cooldownMsByType type ≤ b - a)
      (timesOf type (acceptedEvents lastEventAt events)) ∧
    cooldownMsByType .call = 10000 ∧ cooldownMsByType .mood = 3000 ∧
    cooldownMsByType .voice = 5000 := by
  refine ⟨?_, rfl, rfl, rfl⟩
  have h := timesOf_acceptedEvents_chain type events lastEventAt
  exact List.Chain'.tail (l := lastEventAt.get type :: _) h

/-! ## Authorization -/

theorem ensureAuthorized_eq_true_iff (env : ProcessEnv) (secret : JSValue) :
    ensureAuthorized env secret = true ↔
      APP_SECRET env = [] ∨ secret = .str (APP_SECRET env) := by
  cases secret <;> simp [ensureAuthorized, strictEqString, List.isEmpty_iff]

theorem ensureAuthorized_eq_false {env : ProcessEnv} {secret : JSValue}
    (hcfg : APP_SECRET env ≠ []) (hsec : secret ≠ .str (APP_SECRET env)) :
    ensureAuthorized env secret = false := by
  rw [← Bool.not_eq_true, ensureAuthorized_eq_true_iff]
  exact fun h => h.elim hcfg hsec

/-- C4: with a secret configured, a request whose secret is missing or
different gets 401 with `ok = false` from each of the three handlers, whatever
its other fields and the registry: the registry is returned as it was, and no
helper (neither `checkCooldown` nor a sender) is invoked. -/
theorem unauthorized_request_stops_first (env : ProcessEnv) (w : World) (now fileNow : Int)
    (reg : Registry) (secret : JSValue)
    (hcfg : APP_SECRET env ≠ []) (hsec : secret ≠ .str (APP_SECRET env)) :
    (∀ name message,
      callAssistant env w now ⟨name, message, secret⟩ reg = ⟨reg, Response.unauthorized, []⟩) ∧
    (∀ name mood moodMessage,
      moodCheckin env w now ⟨name, mood, moodMessage, secret⟩ reg =
        ⟨reg, Response.unauthorized, []⟩) ∧
    (∀ name audioBase64 mimeType,
      voiceNote env w now fileNow ⟨name, secret, audioBase64, mimeType⟩ reg =
        ⟨reg, Response.unauthorized, []⟩) ∧
    Response.unauthorized.status = 401 ∧ Response.unauthorized.ok = false := by
  have ha := ensureAuthorized_eq_false hcfg hsec
  refine ⟨?_, ?_, ?_, rfl, rfl⟩
  · intro name message
    simp [callAssistant, ha]
  · intro name mood moodMessage
    simp [moodCheckin, ha]
  · intro name audioBase64 mimeType
    simp [voiceNote, ha]

/-- Witness for C4: the secret `s3cret` is configured and the request sends none. -/
theorem unauthorized_request_stops_first_witness :
    APP_SECRET securedEnv ≠ [] ∧ JSValue.undefined ≠ .str (APP_SECRET securedEnv) ∧
    voiceNote securedEnv calmWorld 9000 9001
      ⟨.undefined, .undefined, .str (utf16 "AAAA"), .undefined⟩ ⟨1, 2, 3⟩ =
        ⟨⟨1, 2, 3⟩, Response.unauthorized, []⟩ :=
  ⟨by decide, by simp,
    (unauthorized_request_stops_first securedEnv calmWorld 9000 9001 ⟨1, 2, 3⟩ .undefined
      (by decide) (by simp)).2.2.1 _ _ _⟩

/-- C5: `ensureAuthorized` grants access exactly when no secret is configured
or the supplied value is the configured string itself; with a secret
configured, a missing secret and every other string are refused. -/
theorem ensureAuthorized_iff_open_or_exact (env : ProcessEnv) (secret : JSValue) :
    (ensureAuthorized env secret = true ↔
      APP_SECRET env = [] ∨ secret = .str (APP_SECRET env)) ∧
    (APP_SECRET env ≠ [] →
      ensureAuthorized env .undefined = false ∧
      ∀ s, s ≠ APP_SECRET env → ensureAuthorized env (.str s) = false) := by
  refine ⟨ensureAuthorized_eq_true_iff env secret, fun hcfg => ⟨?_, ?_⟩⟩
  · exact ensureAuthorized_eq_false hcfg (by simp)
  · intro s hs
    exact ensureAuthorized_eq_false hcfg (by simpa using hs)

/-- Witness for C5: with `s3cret` configured, `s3creT` is refused. -/
theorem ensureAuthorized_iff_open_or_exact_witness :
    APP_SECRET securedEnv ≠ [] ∧ ensureAuthorized securedEnv (.str (utf16 "s3creT")) = false :=
  ⟨by decide,
    ((ensureAuthorized_iff_open_or_exact securedEnv .undefined).2 (by decide)).2
      (utf16 "s3creT") (by decide)⟩

/-! ## Mood validation -/

/-- A mood whose lower-cased key is found neither in the table nor on
`Object.prototype` is answered 400 with the list of accepted moods, after the
cooldown has been taken and with no alert dispatched. -/
theorem moodCheckin_unlisted_key_is_400 (env : ProcessEnv) (w : World) (now : Int)
    (reg : Registry) (body : MoodBody) (t : JSString)
    (hauth : ensureAuthorized env body.secret = true)
    (hcool : cooldownMsByType .mood ≤ now - reg.get .mood)
    (ht : toStringJS (jsOr body.mood (.str [])) = .ok t)
    (hkey : moodMapGet (toLowerCase w t) = .undefined) :
    moodCheckin env w now body reg =
      ⟨reg.set .mood now, Response.invalid 400 moodError, [.checkCooldown .mood]⟩ := by
  have hc := checkCooldown_of_ge hcool
  simp [moodCheckin, hauth, hc, ht, hkey]

set_option maxRecDepth 100000 in
/-- C6 (code at the failing input): the mood `constructor` is not a key of the
mood table, yet `moodMap["constructor"]` finds the member inherited from
`Object.prototype`, the handler does not answer 400, and an alert with the
text `... is feeling undefined undefined. Message: undefined` goes out through
the Telegram sender. -/
theorem moodCheckin_constructor_is_dispatched :
    moodMap.lookup (utf16 "constructor") = none ∧
    ensureAuthorized botEnv .undefined = true ∧
    (checkCooldown .mood 5000 lastEventAt).1.ok = true ∧
    moodCheckin botEnv calmWorld 5000
        ⟨.undefined, .str (utf16 "constructor"), .undefined, .undefined⟩ lastEventAt =
      ⟨⟨0, 5000, 0⟩, Response.success ⟨utf16 "telegram", none⟩,
        [.checkCooldown .mood,
          .sendTelegramAlert (utf16
            "Mood Check-in: Bhaviiii is feeling undefined undefined. Message: undefined")]⟩ ∧
    (Response.success ⟨utf16 "telegram", none⟩).status = 200 := by
  refine ⟨by decide, by decide, by decide, ?_, rfl⟩
  decide

/-! ## Channel selection -/

/-- C7: `dispatchTextAlert` attempts one channel, chosen by which settings are
non-empty. With bot token and chat id it invokes the Telegram text sender and
nothing else (whatever the webhook URL), resolving to `via = "telegram"` when
the sender succeeds and failing with the sender's error when it fails;
otherwise with a webhook URL it does the same with the webhook sender and
`via = "webhook"`; otherwise it invokes no sender, logs the text and resolves
to `via = "server-log"` with a note. -/
theorem dispatchTextAlert_single_channel (env : ProcessEnv) (w : World) (text : JSString) :
    (TELEGRAM_BOT_TOKEN env ≠ [] ∧ TELEGRAM_CHAT_ID env ≠ [] →
      (dispatchTextAlert env w text).2 = [.sendTelegramAlert text] ∧
      (sendTelegramAlert env w text = .ok () →
        (dispatchTextAlert env w text).1 = .ok ⟨utf16 "telegram", none⟩) ∧
      (∀ e, sendTelegramAlert env w text = .error e →
        (dispatchTextAlert env w text).1 = .error e)) ∧
    (¬(TELEGRAM_BOT_TOKEN env ≠ [] ∧ TELEGRAM_CHAT_ID env ≠ []) → NOTIFY_WEBHOOK_URL env ≠ [] →
      (dispatchTextAlert env w text).2 = [.sendWebhookAlert text] ∧
      (sendWebhookAlert env w text = .ok () →
        (dispatchTextAlert env w text).1 = .ok ⟨utf16 "webhook", none⟩) ∧
      (∀ e, sendWebhookAlert env w text = .error e →
        (dispatchTextAlert env w text).1 = .error e)) ∧
    (¬(TELEGRAM_BOT_TOKEN env ≠ [] ∧ TELEGRAM_CHAT_ID env ≠ []) → NOTIFY_WEBHOOK_URL env = [] →
      (dispatchTextAlert env w text).2 = [.consoleLog text] ∧
      (∀ c ∈ (dispatchTextAlert env w text).2, c.isSender = false) ∧
      ∃ note, (dispatchTextAlert env w text).1 = .ok ⟨utf16 "server-log", some note⟩) := by
  refine ⟨?_, ?_, ?_⟩
  · rintro ⟨ht, hc⟩
    have hcond : (!(TELEGRAM_BOT_TOKEN env).isEmpty && !(TELEGRAM_CHAT_ID env).isEmpty) = true := by
      simp [List.isEmpty_iff, ht, hc]
    unfold dispatchTextAlert
    rw [if_pos hcond]
    refine ⟨?_, ?_, ?_⟩
    · cases sendTelegramAlert env w text <;> rfl
    · intro h
      rw [h]
    · intro e h
      rw [h]
  · intro hn hw
    have hcond : ¬ (!(TELEGRAM_BOT_TOKEN env).isEmpty && !(TELEGRAM_CHAT_ID env).isEmpty) = true := by
      simpa [List.isEmpty_iff] using hn
    have hcond2 : (!(NOTIFY_WEBHOOK_URL env).isEmpty) = true := by
      simp [List.isEmpty_iff, hw]
    unfold dispatchTextAlert
    rw [if_neg hcond, if_pos hcond2]
    refine ⟨?_, ?_, ?_⟩
    · cases sendWebhookAlert env w text <;> rfl
    · intro h
      rw [h]
    · intro e h
      rw [h]
  · intro hn hw
    have hcond : ¬ (!(TELEGRAM_BOT_TOKEN env).isEmpty && !(TELEGRAM_CHAT_ID env).isEmpty) = true := by
      simpa [List.isEmpty_iff] using hn
    have hcond2 : ¬ (!(NOTIFY_WEBHOOK_URL env).isEmpty) = true := by
      simp [List.isEmpty_iff, hw]
    unfold dispatchTextAlert
    rw [if_neg hcond, if_neg hcond2]
    exact ⟨rfl, by simp [Call.isSender], _, rfl⟩

/-- Witness for C7: bot credentials and a webhook URL are both configured; only
the Telegram text sender is invoked. -/
theorem dispatchTextAlert_single_channel_witness :
    (TELEGRAM_BOT_TOKEN botEnv ≠ [] ∧ TELEGRAM_CHAT_ID botEnv ≠ []) ∧
    NOTIFY_WEBHOOK_URL botEnv ≠ [] ∧
    (dispatchTextAlert botEnv calmWorld (utf16 "hi")).2 = [.sendTelegramAlert (utf16 "hi")] :=
  ⟨by decide, by decide,
    ((dispatchTextAlert_single_channel botEnv calmWorld (utf16 "hi")).1 (by decide)).1⟩

/-! ## Voice payload bounds -/

set_option maxRecDepth 100000 in
/-- C8 (counterexample): an authorized, non-rate-limited voice note whose audio
decodes to 4 bytes, with the bot channel configured and every outbound request
succeeding, is answered 500 and not 200 when `name` is an object with an own
property `toString`: `String(name)` throws before the length checks, and the
document sender is never invoked. -/
theorem voiceNote_unconvertible_name_is_500 :
    ensureAuthorized botEnv .undefined = true ∧
    (checkCooldown .voice 5000 lastEventAt).1.ok = true ∧
    (calmWorld.base64Decode (utf16 "AAAA")).length = 4 ∧
    (TELEGRAM_BOT_TOKEN botEnv ≠ [] ∧ TELEGRAM_CHAT_ID botEnv ≠ []) ∧
    voiceNote botEnv calmWorld 5000 5001
        ⟨.obj [(utf16 "toString", .num (utf16 "1"))], .undefined, .str (utf16 "AAAA"),
          .undefined⟩ lastEventAt =
      ⟨⟨0, 0, 5000⟩, Response.serverError typeErrorMessage, [.checkCooldown .voice]⟩ ∧
    (Response.serverError typeErrorMessage).status = 500 := by
  refine ⟨by decide, by decide, by decide, by decide, ?_, rfl⟩
  decide

/-- C8 (amended): for an authorized, non-rate-limited voice note whose
`audioBase64` is a non-empty string and whose `name` and `mimeType` convert to
text, with `n` the decoded length: `n = 0` gives 400, `n > 12 MiB` gives 413,
in both cases with no sender invoked; and `1 ≤ n ≤ 12 MiB` (the bound itself
included), with bot token and chat id configured and the document sender
succeeding, gives 200 with `ok = true` and `via = "telegram"`. -/
theorem voiceNote_payload_bounds (env : ProcessEnv) (w : World) (now fileNow : Int)
    (reg : Registry) (name secret mimeType : JSValue) (audio safeName mimeText : JSString)
    (hauth : ensureAuthorized env secret = true)
    (hcool : cooldownMsByType .voice ≤ now - reg.get .voice)
    (haudio : audio ≠ [])
    (hname : safeText name (.str (utf16 "Bhaviiii")) 50 = .ok safeName)
    (hmime : safeText mimeType (.str (utf16 "audio/webm")) 80 = .ok mimeText) :
    ((w.base64Decode audio).length = 0 →
      (voiceNote env w now fileNow ⟨name, secret, .str audio, mimeType⟩ reg).response.status
        = 400 ∧
      ∀ c ∈ (voiceNote env w now fileNow ⟨name, secret, .str audio, mimeType⟩ reg).calls,
        c.isSender = false) ∧
    ((w.base64Decode audio).length > 12 * 1024 * 1024 →
      (voiceNote env w now fileNow ⟨name, secret, .str audio, mimeType⟩ reg).response.status
        = 413 ∧
      ∀ c ∈ (voiceNote env w now fileNow ⟨name, secret, .str audio, mimeType⟩ reg).calls,
        c.isSender = false) ∧
    (1 ≤ (w.base64Decode audio).length → (w.base64Decode audio).length ≤ 12 * 1024 * 1024 →
      TELEGRAM_BOT_TOKEN env ≠ [] → TELEGRAM_CHAT_ID env ≠ [] →
      sendTelegramAudioDocument env w (w.base64Decode audio) (toLowerCase w mimeText)
        (utf16 "voice-note-" ++ numberToString fileNow ++ utf16 "." ++
          voiceExt (toLowerCase w mimeText))
        (utf16 "Voice note from " ++ safeName) = .ok () →
      (voiceNote env w now fileNow ⟨name, secret, .str audio, mimeType⟩ reg).response.status
        = 200 ∧
      (voiceNote env w now fileNow ⟨name, secret, .str audio, mimeType⟩ reg).response.ok
        = true ∧
      (voiceNote env w now fileNow ⟨name, secret, .str audio, mimeType⟩ reg).response.via
        = some (utf16 "telegram")) := by
  have hc := checkCooldown_of_ge hcool
  have hstr : toBoolean (.str audio) = true := by
    simp [toBoolean, List.isEmpty_iff, haudio]
  refine ⟨?_, ?_, ?_⟩
  · intro h0
    simp [voiceNote, hauth, hc, hstr, isString, hname, hmime, stringOf, h0, Response.invalid,
      Call.isSender]
  · intro hbig
    have hne : (w.base64Decode audio).length ≠ 0 := by omega
    have hgt : (w.base64Decode audio).length > MAX_VOICE_NOTE_BYTES := by
      simpa [MAX_VOICE_NOTE_BYTES] using hbig
    have hne2 : w.base64Decode audio ≠ [] := by
      intro h
      simp [h] at hne
    simp [voiceNote, hauth, hc, hstr, isString, hname, hmime, stringOf, hne2, hgt,
      Response.invalid, Call.isSender]
  · intro h1 hle ht hch hsend
    have hne2 : w.base64Decode audio ≠ [] := by
      intro h
      simp [h] at h1
    have hle2 : ¬ (w.base64Decode audio).length > MAX_VOICE_NOTE_BYTES := by
      simpa [MAX_VOICE_NOTE_BYTES] using hle
    have hle3 : ¬ MAX_VOICE_NOTE_BYTES < (w.base64Decode audio).length := hle2
    simp only [List.append_assoc] at hsend
    simp [voiceNote, hauth, hc, hstr, isString, hname, hmime, stringOf, hne2, hle3, ht, hch,
      hsend, Response.success]

set_option maxRecDepth 100000 in
/-- Witness for C8 (amended): four decoded bytes, bot configured, sender succeeding. -/
theorem voiceNote_payload_bounds_witness :
    ensureAuthorized botEnv .undefined = true ∧
    (calmWorld.base64Decode (utf16 "AAAA")).length = 4 ∧
    (voiceNote botEnv calmWorld 5000 5001
      ⟨.undefined, .undefined, .str (utf16 "AAAA"), .undefined⟩ lastEventAt).response.status
        = 200 :=
  ⟨by decide, by decide,
    ((voiceNote_payload_bounds botEnv calmWorld 5000 5001 lastEventAt .undefined .undefined
      .undefined (utf16 "AAAA") (utf16 "Bhaviiii") (utf16 "audio/webm")
      (by decide) (by decide) (by decide) (by decide) (by decide)).2.2
      (by decide) (by decide) (by decide) (by decide) (by decide)).1⟩

/-! ## Field sanitization -/

theorem trim_eq_rdropWhile (s : JSString) :
    trim s = (s.dropWhile isWhiteSpace).rdropWhile isWhiteSpace := rfl

theorem trim_eq_self {s : JSString}
    (hh : ∀ c, s.head? = some c → isWhiteSpace c = false)
    (hl : ∀ c, s.getLast? = some c → isWhiteSpace c = false) : trim s = s := by
  have h1 : s.dropWhile isWhiteSpace = s := by
    cases s with
    | nil => rfl
    | cons c t => simp [List.dropWhile_cons, hh c rfl]
  rw [trim_eq_rdropWhile, h1, List.rdropWhile_eq_self_iff]
  intro hne
  have h2 := hl _ (List.getLast?_eq_getLast s hne)
  simp [h2]

theorem head?_trim_not_whiteSpace (s : JSString) (c : Nat) (h : (trim s).head? = some c) :
    isWhiteSpace c = false := by
  have hne : trim s ≠ [] := by
    intro h0
    simp [h0] at h
  have hpre : trim s <+: s.dropWhile isWhiteSpace := List.rdropWhile_prefix _ _
  have hd := hpre.head hne
  have h2 := List.head_dropWhile_not isWhiteSpace s (hpre.ne_nil hne)
  rw [← hd] at h2
  have hc : (trim s).head hne = c := by
    rw [List.head_eq_iff_head?_eq_some]
    exact h
  rwa [hc] at h2

theorem slice0_of_nonneg (s : JSString) {e : Int} (he : 0 ≤ e) : slice0 s e = s.take e.toNat := by
  simp [slice0, not_lt.mpr he]

theorem length_slice0_le (s : JSString) {e : Int} (he : 0 ≤ e) :
    ((slice0 s e).length : Int) ≤ e := by
  rw [slice0_of_nonneg s he, List.length_take]
  omega

theorem safeText_eq_ok_iff (value fallback : JSValue) (maxLength : Int) (r : JSString) :
    safeText value fallback maxLength = .ok r ↔
      ∃ c, toStringJS (jsOr value fallback) = .ok c ∧ r = slice0 (trim c) maxLength := by
  unfold safeText
  cases toStringJS (jsOr value fallback) with
  | error e => simp
  | ok c => simp [eq_comm]

set_option maxRecDepth 100000 in
/-- C9 (counterexample): a name of one space is sanitized to the empty string,
and sanitizing the empty string again yields the fallback `Her`. -/
theorem safeText_not_idempotent_on_blank :
    safeText (.str (utf16 " ")) (.str (utf16 "Her")) 50 = .ok [] ∧
    safeText (.str []) (.str (utf16 "Her")) 50 = .ok (utf16 "Her") ∧
    utf16 "Her" ≠ [] := by
  refine ⟨by decide, by decide, by decide⟩

/-- C9 (amended): for every value, fallback and maximum length `max ≥ 0`, when
the sanitized text is non-empty and does not end in white space, sanitizing it
again returns it unchanged. -/
theorem safeText_idempotent_on_clean (value fallback : JSValue) (max : Int) (r : JSString)
    (hmax : 0 ≤ max) (hr : safeText value fallback max = .ok r) (hne : r ≠ [])
    (hlast : ∀ c, r.getLast? = some c → isWhiteSpace c = false) :
    safeText (.str r) fallback max = .ok r := by
  obtain ⟨c, -, hrc⟩ := (safeText_eq_ok_iff value fallback max r).mp hr
  rw [slice0_of_nonneg _ hmax] at hrc
  have hhead : ∀ d, r.head? = some d → isWhiteSpace d = false := by
    intro d hd
    apply head?_trim_not_whiteSpace c d
    rw [hrc, List.head?_take] at hd
    split at hd
    · exact absurd hd (by simp)
    · exact hd
  have htrim : trim r = r := trim_eq_self hhead hlast
  have hor : jsOr (.str r) fallback = .str r := by
    simp [jsOr, toBoolean, List.isEmpty_iff, hne]
  rw [safeText_eq_ok_iff]
  refine ⟨r, by rw [hor]; rfl, ?_⟩
  rw [htrim, slice0_of_nonneg _ hmax]
  conv_lhs => rw [hrc]
  rw [hrc, List.take_take, min_self]

set_option maxRecDepth 100000 in
/-- Witness for C9 (amended): the name `  Ana ` is sanitized to `Ana`, which is
then a fixed point. -/
theorem safeText_idempotent_on_clean_witness :
    safeText (.str (utf16 "  Ana ")) (.str (utf16 "Her")) 50 = .ok (utf16 "Ana") ∧
    safeText (.str (utf16 "Ana")) (.str (utf16 "Her")) 50 = .ok (utf16 "Ana") :=
  ⟨by decide,
    safeText_idempotent_on_clean (.str (utf16 "  Ana ")) (.str (utf16 "Her")) 50 (utf16 "Ana")
      (by decide) (by decide) (by decide) (by decide)⟩

theorem chosenTextInWords_eq (value fallback : JSValue)
    (hfalsy : toBoolean value = false → value = .undefined ∨ value = .str [])
    (htruthy : toBoolean value = true → toStringJS value ≠ .ok []) :
    chosenTextInWords value fallback = toStringJS (jsOr value fallback) := by
  cases hb : toBoolean value with
  | false =>
    rcases hfalsy hb with h | h <;> subst h <;>
      simp [chosenTextInWords, jsOr, toBoolean, toStringJS, isAbsent]
  | true =>
    have habs : isAbsent value = false := by
      cases value <;> simp_all [toBoolean, isAbsent]
    have hor : jsOr value fallback = value := by simp [jsOr, hb]
    simp only [chosenTextInWords, hor, habs]
    cases ht : toStringJS value with
    | error e => rfl
    | ok text =>
      have hne : text ≠ [] := by
        intro h
        exact htruthy hb (by rw [ht, h])
      simp [List.isEmpty_iff, hne]

set_option maxRecDepth 100000 in
/-- C10 (counterexample): the number `0` is neither empty nor absent, its text
`0` has no surrounding white space and fits in 50, yet `safeText` returns the
fallback `Her` and not `0`; the text `false` of the value `false` is longer
than 3, yet `safeText` returns `Her` and not its first three characters `fal`;
and for an object with an own property `toString` there is no result at all,
the conversion throws. -/
theorem safeText_truncation_law_fails :
    (chosenTextInWords (.num (utf16 "0")) (.str (utf16 "Her")) = .ok (utf16 "0") ∧
      trim (utf16 "0") = utf16 "0" ∧ ((utf16 "0").length : Int) ≤ 50 ∧
      safeText (.num (utf16 "0")) (.str (utf16 "Her")) 50 = .ok (utf16 "Her") ∧
      utf16 "Her" ≠ utf16 "0") ∧
    (chosenTextInWords (.bool false) (.str (utf16 "Her")) = .ok (utf16 "false") ∧
      (3 : Int) < ((trim (utf16 "false")).length : Int) ∧
      safeText (.bool false) (.str (utf16 "Her")) 3 = .ok (utf16 "Her") ∧
      utf16 "Her" ≠ (trim (utf16 "false")).take 3) ∧
    safeText (.obj [(utf16 "toString", .num (utf16 "1"))]) (.str (utf16 "Her")) 50 =
      .error typeErrorMessage := by
  refine ⟨⟨by decide, by decide, by decide, by decide, by decide⟩,
    ⟨by decide, by decide, by decide, by decide⟩, by decide⟩

/-- C10 (amended): for every value, fallback and `max ≥ 0`, whatever `safeText`
returns has length at most `max`. For every value other than `null`, `false`,
the number `0` and arrays whose text is empty, whenever the chosen text `t`
(the value, or the fallback when the value is empty or absent) exists, that
is `String()` does not throw, `safeText` does return a text `r` of length at
most `max`: `r = t` when `t` neither starts nor ends with white space and has
length at most `max`, and `r` is exactly the first `max` code units of the
trimmed `t` when that is longer than `max`. -/
theorem safeText_truncation_law (value fallback : JSValue) (max : Int) (hmax : 0 ≤ max) :
    (∀ r, safeText value fallback max = .ok r → (r.length : Int) ≤ max) ∧
    ((toBoolean value = false → value = .undefined ∨ value = .str []) →
      (toBoolean value = true → toStringJS value ≠ .ok []) →
      ∀ t, chosenTextInWords value fallback = .ok t →
        ∃ r, safeText value fallback max = .ok r ∧ (r.length : Int) ≤ max ∧
          ((∀ c, t.head? = some c → isWhiteSpace c = false) →
            (∀ c, t.getLast? = some c → isWhiteSpace c = false) →
            (t.length : Int) ≤ max → r = t) ∧
          (max < ((trim t).length : Int) →
            r = (trim t).take max.toNat ∧ (r.length : Int) = max)) := by
  refine ⟨?_, ?_⟩
  · intro r hr
    obtain ⟨c, -, hrc⟩ := (safeText_eq_ok_iff value fallback max r).mp hr
    rw [hrc]
    exact length_slice0_le _ hmax
  · intro hfalsy htruthy t ht
    rw [chosenTextInWords_eq value fallback hfalsy htruthy] at ht
    refine ⟨slice0 (trim t) max, (safeText_eq_ok_iff _ _ _ _).mpr ⟨t, ht, rfl⟩,
      length_slice0_le _ hmax, ?_, ?_⟩
    · intro hh hl hlen
      rw [trim_eq_self hh hl, slice0_of_nonneg _ hmax]
      exact List.take_of_length_le (by omega)
    · intro hlong
      rw [slice0_of_nonneg _ hmax]
      refine ⟨rfl, ?_⟩
      rw [List.length_take]
      omega

set_option maxRecDepth 100000 in
/-- Witness for C10 (amended): a padded text of eleven characters is cut to
its first five. -/
theorem safeText_truncation_law_witness :
    (0 : Int) ≤ 5 ∧
    chosenTextInWords (.str (utf16 "  hello world ")) (.str (utf16 "Her")) =
      .ok (utf16 "  hello world ") ∧
    (5 : Int) < ((trim (utf16 "  hello world ")).length : Int) ∧
    ∃ r, safeText (.str (utf16 "  hello world ")) (.str (utf16 "Her")) 5 = .ok r ∧
      (r.length : Int) ≤ 5 ∧ r = (trim (utf16 "  hello world ")).take 5 :=
  ⟨by decide, by decide, by decide,
    match (safeText_truncation_law (.str (utf16 "  hello world ")) (.str (utf16 "Her")) 5
      (by decide)).2 (fun h => absurd h (by decide)) (by decide) (utf16 "  hello world ")
      (by decide) with
    | ⟨r, h1, h2, _, h4⟩ => ⟨r, h1, h2, (h4 (by decide)).1⟩⟩

/-! ## Sanitization against the steps of the specification -/

set_option maxRecDepth 100000 in
/-- C11 (counterexample): for the number `0` the listed steps keep its text
`0`, which is neither empty nor absent, while `safeText` takes the fallback
`Her`; and for the maximum length `-1` the listed steps keep no character of
`abc` while `safeText` keeps `ab`. -/
theorem safeText_differs_from_steps :
    safeText (.num (utf16 "0")) (.str (utf16 "Her")) 50 = .ok (utf16 "Her") ∧
    sanitizeInOrder (.num (utf16 "0")) (.str (utf16 "Her")) 50 = .ok (utf16 "0") ∧
    safeText (.str (utf16 "abc")) (.str (utf16 "Her")) (-1) = .ok (utf16 "ab") ∧
    sanitizeInOrder (.str (utf16 "abc")) (.str (utf16 "Her")) (-1) = .ok [] := by
  refine ⟨by decide, by decide, by decide, by decide⟩

/-- C11 (amended): for every value other than `null`, `false`, the number `0`
and arrays whose text is empty, every fallback and every `max ≥ 0`, `safeText`
equals the listed steps in their order: coerce the value to text; if that text
is empty or the value is absent, take the fallback; trim; keep the first `max`
characters. A conversion that throws, throws in both. -/
theorem safeText_eq_sanitizeInOrder (value fallback : JSValue) (max : Int) (hmax : 0 ≤ max)
    (hfalsy : toBoolean value = false → value = .undefined ∨ value = .str [])
    (htruthy : toBoolean value = true → toStringJS value ≠ .ok []) :
    safeText value fallback max = sanitizeInOrder value fallback max := by
  have hslice : ∀ s : JSString, slice0 (trim s) max = (trim s).take max.toNat :=
    fun s => slice0_of_nonneg _ hmax
  cases hb : toBoolean value with
  | false =>
    rcases hfalsy hb with h | h <;> subst h <;>
      simp only [safeText, sanitizeInOrder, jsOr, toBoolean, toStringJS, isAbsent, hslice] <;>
      cases hf : toStringJS fallback <;> simp [hf]
  | true =>
    have habs : isAbsent value = false := by
      cases value <;> simp_all [toBoolean, isAbsent]
    have hor : jsOr value fallback = value := by simp [jsOr, hb]
    simp only [safeText, sanitizeInOrder, hor, habs, hslice]
    cases ht : toStringJS value with
    | error e => rfl
    | ok text =>
      have hne : text ≠ [] := by
        intro h
        exact htruthy hb (by rw [ht, h])
      simp [List.isEmpty_iff, hne]

set_option maxRecDepth 100000 in
/-- Witness for C11 (amended): a padded string cut to three characters. -/
theorem safeText_eq_sanitizeInOrder_witness :
    safeText (.str (utf16 " Anaya ")) (.str (utf16 "Her")) 3 =
      sanitizeInOrder (.str (utf16 " Anaya ")) (.str (utf16 "Her")) 3 ∧
    sanitizeInOrder (.str (utf16 " Anaya ")) (.str (utf16 "Her")) 3 = .ok (utf16 "Ana") :=
  ⟨safeText_eq_sanitizeInOrder (.str (utf16 " Anaya ")) (.str (utf16 "Her")) 3 (by decide)
      (fun h => absurd h (by decide)) (by decide),
    by decide⟩

/-! ## Case-insensitive mood lookup -/

theorem toLowerCase_of_ascii (w : World) {s : JSString} (h : s.all (fun c => c < 128) = true) :
    toLowerCase w s = s.map asciiLower := by
  simp [toLowerCase, h]

theorem le_asciiLower (c : Nat) : c ≤ asciiLower c := by
  unfold asciiLower
  split <;> omega

theorem all_ascii_of_map_asciiLower {s key : JSString} (hs : s.map asciiLower = key)
    (hk : key.all (fun c => c < 128) = true) : s.all (fun c => c < 128) = true := by
  subst hs
  simp only [List.all_eq_true, List.mem_map, decide_eq_true_eq] at hk ⊢
  intro c hc
  exact lt_of_le_of_lt (le_asciiLower c) (hk _ ⟨c, hc, rfl⟩)

set_option maxRecDepth 100000 in
theorem moodMap_keys_lower :
    ∀ key ∈ moodMap.map Prod.fst,
      key.all (fun c => c < 128) = true ∧ key.map asciiLower = key ∧
      (moodMap.lookup key).isSome = true := by
  decide

theorem moodCheckin_congr_key (env : ProcessEnv) (w : World) (now : Int) (reg : Registry)
    (name moodMessage secret : JSValue) (s t : JSString)
    (h : toLowerCase w s = toLowerCase w t) :
    moodCheckin env w now ⟨name, .str s, moodMessage, secret⟩ reg =
      moodCheckin env w now ⟨name, .str t, moodMessage, secret⟩ reg := by
  have hs : ∀ x : JSString, toStringJS (jsOr (.str x) (.str [])) = .ok x := by
    intro x
    cases x with
    | nil => rfl
    | cons c cs => rfl
  simp only [moodCheckin, hs, h]

/-- C12: for every key of the mood table and every re-casing `s` of its letters
(a string that lower-cases, letter by letter, to the key), the handler reads
the same table row as for the key itself, hence the same label, emoji and
default message, and the whole outcome of the request (response and every
dispatched text) is the one of the request that differs only in carrying the
lower-case key. -/
theorem moodCheckin_case_insensitive (env : ProcessEnv) (w : World) (now : Int) (reg : Registry)
    (name moodMessage secret : JSValue) (key s : JSString)
    (hkey : key ∈ moodMap.map Prod.fst) (hs : s.map asciiLower = key) :
    toLowerCase w s = key ∧
    (∃ entry, moodMap.lookup key = some entry ∧ moodMapGet key = .own entry ∧
      moodMapGet (toLowerCase w s) = .own entry) ∧
    moodCheckin env w now ⟨name, .str s, moodMessage, secret⟩ reg =
      moodCheckin env w now ⟨name, .str key, moodMessage, secret⟩ reg := by
  obtain ⟨hascii, hlow, hsome⟩ := moodMap_keys_lower key hkey
  have h1 : toLowerCase w s = key := by
    rw [toLowerCase_of_ascii w (all_ascii_of_map_asciiLower hs hascii), hs]
  have h2 : toLowerCase w key = key := by
    rw [toLowerCase_of_ascii w hascii, hlow]
  refine ⟨h1, ?_, moodCheckin_congr_key env w now reg name moodMessage secret s key
    (h1.trans h2.symm)⟩
  obtain ⟨entry, he⟩ := Option.isSome_iff_exists.mp hsome
  have hget : moodMapGet key = .own entry := by simp [moodMapGet, he]
  exact ⟨entry, he, hget, by rw [h1]; exact hget⟩

set_option maxRecDepth 100000 in
/-- Witness for C12: `HaPPy` resolves as `happy`. -/
theorem moodCheckin_case_insensitive_witness :
    utf16 "happy" ∈ moodMap.map Prod.fst ∧
    (utf16 "HaPPy").map asciiLower = utf16 "happy" ∧
    moodCheckin openEnv calmWorld 5000
        ⟨.undefined, .str (utf16 "HaPPy"), .undefined, .undefined⟩ lastEventAt =
      moodCheckin openEnv calmWorld 5000
        ⟨.undefined, .str (utf16 "happy"), .undefined, .undefined⟩ lastEventAt :=
  ⟨by decide, by decide,
    (moodCheckin_case_insensitive openEnv calmWorld 5000 lastEventAt .undefined .undefined
      .undefined (utf16 "happy") (utf16 "HaPPy") (by decide) (by decide)).2.2⟩

/-! ## Monotonicity of the registry -/

theorem cooldownMsByType_pos (t : EventType) : 0 < cooldownMsByType t := by
  cases t <;> decide

theorem checkCooldown_registry_mono (t type : EventType) (now : Int) (reg : Registry) :
    reg.get type ≤ (checkCooldown t now reg).2.get type := by
  by_cases hlt : now - reg.get t < cooldownMsByType t
  · rw [checkCooldown_of_lt hlt]
  · have hge : cooldownMsByType t ≤ now - reg.get t := not_lt.mp hlt
    rw [checkCooldown_of_ge hge]
    by_cases ht : type = t
    · subst ht
      rw [Registry.get_set_same]
      have hpos := cooldownMsByType_pos type
      omega
    · rw [Registry.get_set_other reg now ht]

theorem callAssistant_registry (env : ProcessEnv) (w : World) (now : Int) (body : CallBody)
    (reg : Registry) :
    (callAssistant env w now body reg).registry =
      if ensureAuthorized env body.secret then (checkCooldown .call now reg).2 else reg := by
  simp only [callAssistant]
  repeat' split
  all_goals simp_all

theorem moodCheckin_registry (env : ProcessEnv) (w : World) (now : Int) (body : MoodBody)
    (reg : Registry) :
    (moodCheckin env w now body reg).registry =
      if ensureAuthorized env body.secret then (checkCooldown .mood now reg).2 else reg := by
  simp only [moodCheckin]
  repeat' split
  all_goals simp_all

theorem voiceNote_registry (env : ProcessEnv) (w : World) (now fileNow : Int) (body : VoiceBody)
    (reg : Registry) :
    (voiceNote env w now fileNow body reg).registry =
      if ensureAuthorized env body.secret then (checkCooldown .voice now reg).2 else reg := by
  simp only [voiceNote]
  repeat' split
  all_goals simp_all

/-- C13: every request leaves each entry of the cooldown registry at least as
large as it found it, for every handler, every body (accepted or rejected,
whatever the answer) and every clock reading, also one that lies before the
stored timestamps; the same holds for `checkCooldown` itself. -/
theorem registry_never_decreases (env : ProcessEnv) (w : World) (now fileNow : Int)
    (reg : Registry) (type : EventType) :
    (∀ t, reg.get type ≤ (checkCooldown t now reg).2.get type) ∧
    (∀ body, reg.get type ≤ (callAssistant env w now body reg).registry.get type) ∧
    (∀ body, reg.get type ≤ (moodCheckin env w now body reg).registry.get type) ∧
    (∀ body, reg.get type ≤ (voiceNote env w now fileNow body reg).registry.get type) := by
  refine ⟨fun t => checkCooldown_registry_mono t type now reg, ?_, ?_, ?_⟩
  · intro body
    rw [callAssistant_registry]
    split
    · exact checkCooldown_registry_mono _ type now reg
    · exact le_refl _
  · intro body
    rw [moodCheckin_registry]
    split
    · exact checkCooldown_registry_mono _ type now reg
    · exact le_refl _
  · intro body
    rw [voiceNote_registry]
    split
    · exact checkCooldown_registry_mono _ type now reg
    · exact le_refl _

/-! ## File extension of a voice note -/

theorem includes_iff (s pat : JSString) : includes s pat = true ↔ pat <:+: s := by
  simp only [includes, List.any_eq_true, List.mem_tails, List.isPrefixOf_iff_prefix]
  rw [List.infix_iff_prefix_suffix]
  constructor
  · rintro ⟨t, ht, hp⟩
    exact ⟨t, hp, ht⟩
  · rintro ⟨t, hp, ht⟩
    exact ⟨t, ht, hp⟩

theorem includes_eq_false_iff (s pat : JSString) : includes s pat = false ↔ ¬ pat <:+: s := by
  rw [← includes_iff, Bool.not_eq_true]

set_option maxRecDepth 100000 in
/-- C16 (counterexample): the MIME type `audio/ogg;codecs=mp3` contains `ogg`,
and the extension derived from it is `mp3`. -/
theorem voiceExt_ogg_overridden :
    includes (utf16 "audio/ogg;codecs=mp3") (utf16 "ogg") = true ∧
    voiceExt (utf16 "audio/ogg;codecs=mp3") = utf16 "mp3" ∧
    utf16 "mp3" ≠ utf16 "ogg" := by
  refine ⟨by decide, by decide, by decide⟩

/-- C16 (amended): the later test wins. The extension is `m4a` if the MIME type
contains `mp4` or `m4a`; otherwise `mp3` if it contains `mpeg` or `mp3`;
otherwise `ogg` if it contains `ogg`; otherwise `webm` (so `webm` exactly when
none of the five substrings occurs). -/
theorem voiceExt_last_match_wins (m : JSString) :
    (utf16 "mp4" <:+: m ∨ utf16 "m4a" <:+: m → voiceExt m = utf16 "m4a") ∧
    (¬ (utf16 "mp4" <:+: m ∨ utf16 "m4a" <:+: m) →
      (utf16 "mpeg" <:+: m ∨ utf16 "mp3" <:+: m) → voiceExt m = utf16 "mp3") ∧
    (¬ (utf16 "mp4" <:+: m ∨ utf16 "m4a" <:+: m) →
      ¬ (utf16 "mpeg" <:+: m ∨ utf16 "mp3" <:+: m) →
      utf16 "ogg" <:+: m → voiceExt m = utf16 "ogg") ∧
    (¬ (utf16 "mp4" <:+: m ∨ utf16 "m4a" <:+: m) →
      ¬ (utf16 "mpeg" <:+: m ∨ utf16 "mp3" <:+: m) →
      ¬ utf16 "ogg" <:+: m → voiceExt m = utf16 "webm") := by
  simp only [← includes_iff]
  unfold voiceExt
  cases includes m (utf16 "mp4") <;> cases includes m (utf16 "m4a") <;>
    cases includes m (utf16 "mpeg") <;> cases includes m (utf16 "mp3") <;>
    cases includes m (utf16 "ogg") <;> simp

set_option maxRecDepth 100000 in
/-- Witness for C16 (amended): `audio/ogg; codecs=opus` gives `ogg`. -/
theorem voiceExt_last_match_wins_witness :
    utf16 "ogg" <:+: utf16 "audio/ogg; codecs=opus" ∧
    voiceExt (utf16 "audio/ogg; codecs=opus") = utf16 "ogg" :=
  ⟨(includes_iff _ _).mp (by decide),
    (voiceExt_last_match_wins (utf16 "audio/ogg; codecs=opus")).2.2.1
      (fun h => absurd (h.elim (includes_iff _ _).mpr (includes_iff _ _).mpr) (by decide))
      (fun h => absurd (h.elim (includes_iff _ _).mpr (includes_iff _ _).mpr) (by decide))
      ((includes_iff _ _).mp (by decide))⟩

/-! ## The configured secret -/

theorem orEmpty_some (s : JSString) : orEmpty (some s) = s := by
  cases s <;> rfl

/-- C18: the configured secret is the trimmed environment value, with the empty
string and the placeholder `change-this-secret` meaning that none is
configured. When the trimmed value is one of those two (or the variable is
unset), every supplied secret is accepted, a missing one included; otherwise a
supplied secret is accepted exactly when it is the trimmed value. -/
theorem ensureAuthorized_by_environment (env : ProcessEnv) (secret : JSValue) :
    (∀ v, env.APP_SECRET = some v → rawSecret env = trim v) ∧
    (env.APP_SECRET = none → rawSecret env = []) ∧
    (rawSecret env = [] ∨ rawSecret env = utf16 "change-this-secret" →
      ensureAuthorized env secret = true ∧ ensureAuthorized env .undefined = true) ∧
    (rawSecret env ≠ [] → rawSecret env ≠ utf16 "change-this-secret" →
      (ensureAuthorized env secret = true ↔ secret = .str (rawSecret env))) := by
  refine ⟨?_, ?_, ?_, ?_⟩
  · intro v hv
    simp [rawSecret, hv, orEmpty_some]
  · intro hv
    simp [rawSecret, hv, orEmpty, trim]
  · intro h
    have hs : APP_SECRET env = [] := by
      rcases h with h | h <;> simp [APP_SECRET, h]
    simp [ensureAuthorized, hs]
  · intro h1 h2
    have hs : APP_SECRET env = rawSecret env := by
      simp [APP_SECRET, h1, h2, List.isEmpty_iff]
    rw [ensureAuthorized_eq_true_iff, hs]
    exact ⟨fun h => h.resolve_left h1, Or.inr⟩

set_option maxRecDepth 100000 in
/-- Witness for C18: the padded value ` s3cret ` configures the secret `s3cret`,
and the padded placeholder configures none. -/
theorem ensureAuthorized_by_environment_witness :
    (ensureAuthorized ⟨some (utf16 " s3cret "), none, none, none⟩ (.str (utf16 "s3cret")) = true ↔
      JSValue.str (utf16 "s3cret") =
        .str (rawSecret ⟨some (utf16 " s3cret "), none, none, none⟩)) ∧
    ensureAuthorized ⟨some (utf16 " change-this-secret "), none, none, none⟩
      (.str (utf16 "anything")) = true :=
  ⟨(ensureAuthorized_by_environment ⟨some (utf16 " s3cret "), none, none, none⟩
      (.str (utf16 "s3cret"))).2.2.2 (by decide) (by decide),
    ((ensureAuthorized_by_environment ⟨some (utf16 " change-this-secret "), none, none, none⟩
      (.str (utf16 "anything"))).2.2.1 (Or.inr (by decide))).1⟩

/-! ## The cooldown is taken before validation -/

theorem moodCheckin_inside_window (env : ProcessEnv) (w : World) (now : Int) (body : MoodBody)
    (reg : Registry) (hauth : ensureAuthorized env body.secret = true)
    (h : now - reg.get .mood < cooldownMsByType .mood) :
    (moodCheckin env w now body reg).response.status = 429 := by
  simp [moodCheckin, hauth, checkCooldown_of_lt h, Response.tooManyRequests]

theorem voiceNote_inside_window (env : ProcessEnv) (w : World) (now fileNow : Int)
    (body : VoiceBody) (reg : Registry) (hauth : ensureAuthorized env body.secret = true)
    (h : now - reg.get .voice < cooldownMsByType .voice) :
    (voiceNote env w now fileNow body reg).response.status = 429 := by
  simp [voiceNote, hauth, checkCooldown_of_lt h, Response.tooManyRequests]

theorem voiceNote_missing_audio_is_400 (env : ProcessEnv) (w : World) (now fileNow : Int)
    (body : VoiceBody) (reg : Registry) (hauth : ensureAuthorized env body.secret = true)
    (hcool : cooldownMsByType .voice ≤ now - reg.get .voice)
    (haudio : toBoolean body.audioBase64 = false ∨ isString body.audioBase64 = false) :
    (voiceNote env w now fileNow body reg).response.status = 400 := by
  have hc := checkCooldown_of_ge hcool
  rcases haudio with h | h <;> simp [voiceNote, hauth, hc, h, Response.invalid]

theorem voiceNote_decoded_length (env : ProcessEnv) (w : World) (now fileNow : Int)
    (reg : Registry) (name secret mimeType : JSValue) (audio safeName mimeText : JSString)
    (hauth : ensureAuthorized env secret = true)
    (hcool : cooldownMsByType .voice ≤ now - reg.get .voice)
    (haudio : audio ≠ [])
    (hname : safeText name (.str (utf16 "Bhaviiii")) 50 = .ok safeName)
    (hmime : safeText mimeType (.str (utf16 "audio/webm")) 80 = .ok mimeText) :
    ((w.base64Decode audio).length = 0 →
      (voiceNote env w now fileNow ⟨name, secret, .str audio, mimeType⟩ reg).response.status
        = 400) ∧
    (MAX_VOICE_NOTE_BYTES < (w.base64Decode audio).length →
      (voiceNote env w now fileNow ⟨name, secret, .str audio, mimeType⟩ reg).response.status
        = 413) := by
  have hc := checkCooldown_of_ge hcool
  have hstr : toBoolean (.str audio) = true := by
    simp [toBoolean, List.isEmpty_iff, haudio]
  refine ⟨?_, ?_⟩
  · intro h0
    simp [voiceNote, hauth, hc, hstr, isString, hname, hmime, stringOf, h0, Response.invalid]
  · intro hbig
    have hne2 : w.base64Decode audio ≠ [] := by
      intro h
      simp [h] at hbig
    simp [voiceNote, hauth, hc, hstr, isString, hname, hmime, stringOf, hne2, hbig,
      Response.invalid]

/-- C17: an authorized request that arrives outside the cooldown window stores
`now` for its type whatever is wrong with its payload, so that every authorized
request of the same type arriving less than the cooldown after `now` is
answered 429. This covers the mood check-in answered 400 for an unknown mood,
and the voice note answered 400 for missing or empty audio or for audio that
decodes to nothing, or 413 for oversized audio. -/
theorem cooldown_taken_before_validation (env : ProcessEnv) (w : World) (now next : Int)
    (reg : Registry) :
    (∀ body : MoodBody, ensureAuthorized env body.secret = true →
      cooldownMsByType .mood ≤ now - reg.get .mood →
      (moodCheckin env w now body reg).registry.get .mood = now ∧
      (∀ t, toStringJS (jsOr body.mood (.str [])) = .ok t →
        moodMapGet (toLowerCase w t) = .undefined →
        (moodCheckin env w now body reg).response.status = 400) ∧
      ∀ later : MoodBody, ensureAuthorized env later.secret = true →
        next - now < cooldownMsByType .mood →
        (moodCheckin env w next later
          (moodCheckin env w now body reg).registry).response.status = 429) ∧
    (∀ (fileNow : Int) (body : VoiceBody), ensureAuthorized env body.secret = true →
      cooldownMsByType .voice ≤ now - reg.get .voice →
      (voiceNote env w now fileNow body reg).registry.get .voice = now ∧
      (toBoolean body.audioBase64 = false ∨ isString body.audioBase64 = false →
        (voiceNote env w now fileNow body reg).response.status = 400) ∧
      (∀ audio safeName mimeText, body.audioBase64 = .str audio → audio ≠ [] →
        safeText body.name (.str (utf16 "Bhaviiii")) 50 = .ok safeName →
        safeText body.mimeType (.str (utf16 "audio/webm")) 80 = .ok mimeText →
        ((w.base64Decode audio).length = 0 →
          (voiceNote env w now fileNow body reg).response.status = 400) ∧
        (12 * 1024 * 1024 < (w.base64Decode audio).length →
          (voiceNote env w now fileNow body reg).response.status = 413)) ∧
      ∀ (fileNext : Int) (later : VoiceBody), ensureAuthorized env later.secret = true →
        next - now < cooldownMsByType .voice →
        (voiceNote env w next fileNext later
          (voiceNote env w now fileNow body reg).registry).response.status = 429) := by
  refine ⟨?_, ?_⟩
  · intro body hauth hcool
    have hreg : (moodCheckin env w now body reg).registry = reg.set .mood now := by
      rw [moodCheckin_registry, if_pos hauth, checkCooldown_of_ge hcool]
    refine ⟨by rw [hreg]; rfl, ?_, ?_⟩
    · intro t ht hkey
      rw [moodCheckin_unlisted_key_is_400 env w now reg body t hauth hcool ht hkey]
      rfl
    · intro later hlater hnext
      apply moodCheckin_inside_window env w next later _ hlater
      rw [hreg]
      exact hnext
  · intro fileNow body hauth hcool
    have hreg : (voiceNote env w now fileNow body reg).registry = reg.set .voice now := by
      rw [voiceNote_registry, if_pos hauth, checkCooldown_of_ge hcool]
    refine ⟨by rw [hreg]; rfl, ?_, ?_, ?_⟩
    · exact voiceNote_missing_audio_is_400 env w now fileNow body reg hauth hcool
    · intro audio safeName mimeText ha hne hname hmime
      obtain ⟨name, secret, audioBase64, mimeType⟩ := body
      simp only at ha hname hmime hauth
      subst ha
      exact voiceNote_decoded_length env w now fileNow reg name secret mimeType audio safeName
        mimeText hauth hcool hne hname hmime
    · intro fileNext later hlater hnext
      apply voiceNote_inside_window env w next fileNext later _ hlater
      rw [hreg]
      exact hnext

set_option maxRecDepth 100000 in
/-- Witness for C17: the unknown mood `ecstatic` at 5000 ms is answered 400, and
a valid check-in one second later is answered 429. -/
theorem cooldown_taken_before_validation_witness :
    (moodCheckin openEnv calmWorld 5000
      ⟨.undefined, .str (utf16 "ecstatic"), .undefined, .undefined⟩ lastEventAt).response.status
        = 400 ∧
    (moodCheckin openEnv calmWorld 6000 ⟨.undefined, .str (utf16 "happy"), .undefined, .undefined⟩
      (moodCheckin openEnv calmWorld 5000
        ⟨.undefined, .str (utf16 "ecstatic"), .undefined, .undefined⟩
        lastEventAt).registry).response.status = 429 :=
  ⟨((cooldown_taken_before_validation openEnv calmWorld 5000 6000 lastEventAt).1
      ⟨.undefined, .str (utf16 "ecstatic"), .undefined, .undefined⟩
      (by decide) (by decide)).2.1 (utf16 "ecstatic") (by decide) (by decide),
    ((cooldown_taken_before_validation openEnv calmWorld 5000 6000 lastEventAt).1
      ⟨.undefined, .str (utf16 "ecstatic"), .undefined, .undefined⟩
      (by decide) (by decide)).2.2
      ⟨.undefined, .str (utf16 "happy"), .undefined, .undefined⟩ (by decide) (by decide)⟩

/-! ## Voice notes without the bot channel -/

theorem dispatchTextAlert_without_bot (env : ProcessEnv) (w : World) (text : JSString)
    (hbot : ¬ (TELEGRAM_BOT_TOKEN env ≠ [] ∧ TELEGRAM_CHAT_ID env ≠ [])) :
    dispatchTextAlert env w text =
      if !(NOTIFY_WEBHOOK_URL env).isEmpty then
        match sendWebhookAlert env w text with
        | .error e => (.error e, [.sendWebhookAlert text])
        | .ok _ => (.ok ⟨utf16 "webhook", none⟩, [.sendWebhookAlert text])
      else
        (.ok ⟨utf16 "server-log",
            some (utf16 "Set TELEGRAM_BOT_TOKEN + TELEGRAM_CHAT_ID for phone push notifications.")⟩,
          [.consoleLog text]) := by
  have hcond : ¬ (!(TELEGRAM_BOT_TOKEN env).isEmpty && !(TELEGRAM_CHAT_ID env).isEmpty) = true := by
    simpa [List.isEmpty_iff] using hbot
  unfold dispatchTextAlert
  rw [if_neg hcond]

theorem voiceNote_without_bot (env : ProcessEnv) (w : World) (now fileNow : Int)
    (reg : Registry) (name secret mimeType : JSValue) (audio safeName mimeText : JSString)
    (hauth : ensureAuthorized env secret = true)
    (hcool : cooldownMsByType .voice ≤ now - reg.get .voice)
    (haudio : audio ≠ [])
    (hname : safeText name (.str (utf16 "Bhaviiii")) 50 = .ok safeName)
    (hmime : safeText mimeType (.str (utf16 "audio/webm")) 80 = .ok mimeText)
    (h1 : 1 ≤ (w.base64Decode audio).length)
    (hle : (w.base64Decode audio).length ≤ MAX_VOICE_NOTE_BYTES)
    (hbot : ¬ (TELEGRAM_BOT_TOKEN env ≠ [] ∧ TELEGRAM_CHAT_ID env ≠ [])) :
    voiceNote env w now fileNow ⟨name, secret, .str audio, mimeType⟩ reg =
      match dispatchTextAlert env w (utf16 "Voice note received from " ++ safeName ++
          utf16 ", but Telegram is not configured for audio delivery.") with
      | (.error e, calls) =>
        ⟨reg.set .voice now, Response.serverError e, .checkCooldown .voice :: calls⟩
      | (.ok result, calls) =>
        ⟨reg.set .voice now, Response.success result, .checkCooldown .voice :: calls⟩ := by
  have hc := checkCooldown_of_ge hcool
  have hstr : toBoolean (.str audio) = true := by
    simp [toBoolean, List.isEmpty_iff, haudio]
  have hne2 : w.base64Decode audio ≠ [] := by
    intro h
    simp [h] at h1
  have hle3 : ¬ MAX_VOICE_NOTE_BYTES < (w.base64Decode audio).length := not_lt.mpr hle
  have hcond : (!(TELEGRAM_BOT_TOKEN env).isEmpty && !(TELEGRAM_CHAT_ID env).isEmpty) = false := by
    rw [← Bool.not_eq_true]
    simpa [List.isEmpty_iff] using hbot
  simp only [voiceNote, hauth, hc, hstr, isString, hname, hmime, stringOf, hcond]
  simp [hne2, hle3]

set_option maxRecDepth 100000 in
/-- C14 (counterexample): with only a webhook URL configured and a valid
four-byte voice note, the answer carries no `via` when the webhook answers 503
(the answer is 500), and likewise when `mimeType` is an object whose
conversion to text throws, in which case no sender is invoked at all. -/
theorem voiceNote_without_bot_can_fail :
    (ensureAuthorized hookEnv .undefined = true ∧
      (checkCooldown .voice 5000 lastEventAt).1.ok = true ∧
      ¬ (TELEGRAM_BOT_TOKEN hookEnv ≠ [] ∧ TELEGRAM_CHAT_ID hookEnv ≠ []) ∧
      NOTIFY_WEBHOOK_URL hookEnv ≠ [] ∧
      (downWorld.base64Decode (utf16 "AAAA")).length = 4) ∧
    ((voiceNote hookEnv downWorld 5000 5001
        ⟨.undefined, .undefined, .str (utf16 "AAAA"), .undefined⟩ lastEventAt).response.status
        = 500 ∧
      (voiceNote hookEnv downWorld 5000 5001
        ⟨.undefined, .undefined, .str (utf16 "AAAA"), .undefined⟩ lastEventAt).response.via
        = none) ∧
    voiceNote hookEnv calmWorld 5000 5001
        ⟨.undefined, .undefined, .str (utf16 "AAAA"),
          .obj [(utf16 "toString", .num (utf16 "1"))]⟩ lastEventAt =
      ⟨⟨0, 0, 5000⟩, Response.serverError typeErrorMessage, [.checkCooldown .voice]⟩ := by
  refine ⟨⟨by decide, by decide, by decide, by decide, by decide⟩, ⟨by decide, by decide⟩, ?_⟩
  decide

/-- C14 (amended): for an authorized, non-rate-limited voice note whose audio is
a non-empty string decoding to between 1 byte and 12 MiB and whose `name` and
`mimeType` convert to text, when bot token or chat id is missing: the document
sender is not invoked; the text `Voice note received from <name>, but Telegram
is not configured for audio delivery.` is what `dispatchTextAlert` is called
with; and the answer is 200 with `via = "webhook"` when a webhook URL is
configured and the webhook sender succeeds, 500 when that sender fails, and
200 with `via = "server-log"` when no webhook URL is configured. -/
theorem voiceNote_degrades_to_text (env : ProcessEnv) (w : World) (now fileNow : Int)
    (reg : Registry) (name secret mimeType : JSValue) (audio safeName mimeText : JSString)
    (hauth : ensureAuthorized env secret = true)
    (hcool : cooldownMsByType .voice ≤ now - reg.get .voice)
    (haudio : audio ≠ [])
    (hname : safeText name (.str (utf16 "Bhaviiii")) 50 = .ok safeName)
    (hmime : safeText mimeType (.str (utf16 "audio/webm")) 80 = .ok mimeText)
    (h1 : 1 ≤ (w.base64Decode audio).length)
    (hle : (w.base64Decode audio).length ≤ 12 * 1024 * 1024)
    (hbot : ¬ (TELEGRAM_BOT_TOKEN env ≠ [] ∧ TELEGRAM_CHAT_ID env ≠ [])) :
    (voiceNote env w now fileNow ⟨name, secret, .str audio, mimeType⟩ reg).calls =
      .checkCooldown .voice ::
        (dispatchTextAlert env w (utf16 "Voice note received from " ++ safeName ++
          utf16 ", but Telegram is not configured for audio delivery.")).2 ∧
    (∀ b m f c, Call.sendTelegramAudioDocument b m f c ∉
      (voiceNote env w now fileNow ⟨name, secret, .str audio, mimeType⟩ reg).calls) ∧
    (NOTIFY_WEBHOOK_URL env ≠ [] →
      (sendWebhookAlert env w (utf16 "Voice note received from " ++ safeName ++
          utf16 ", but Telegram is not configured for audio delivery.") = .ok () →
        (voiceNote env w now fileNow ⟨name, secret, .str audio, mimeType⟩ reg).response =
          Response.success ⟨utf16 "webhook", none⟩) ∧
      (∀ e, sendWebhookAlert env w (utf16 "Voice note received from " ++ safeName ++
          utf16 ", but Telegram is not configured for audio delivery.") = .error e →
        (voiceNote env w now fileNow ⟨name, secret, .str audio, mimeType⟩ reg).response =
          Response.serverError e)) ∧
    (NOTIFY_WEBHOOK_URL env = [] →
      (voiceNote env w now fileNow ⟨name, secret, .str audio, mimeType⟩ reg).response.status
        = 200 ∧
      (voiceNote env w now fileNow ⟨name, secret, .str audio, mimeType⟩ reg).response.via
        = some (utf16 "server-log")) := by
  rw [voiceNote_without_bot env w now fileNow reg name secret mimeType audio safeName mimeText
    hauth hcool haudio hname hmime h1 hle hbot, dispatchTextAlert_without_bot env w _ hbot]
  by_cases hw : NOTIFY_WEBHOOK_URL env = []
  · simp [hw, Response.success]
  · have hcond : (!(NOTIFY_WEBHOOK_URL env).isEmpty) = true := by
      simp [List.isEmpty_iff, hw]
    simp only [hcond, if_true]
    cases hs : sendWebhookAlert env w (utf16 "Voice note received from " ++ safeName ++
        utf16 ", but Telegram is not configured for audio delivery.") with
    | error e => simp [hw]
    | ok u => simp [hw]

set_option maxRecDepth 100000 in
/-- Witness for C14 (amended): only a webhook URL is configured and it answers. -/
theorem voiceNote_degrades_to_text_witness :
    ¬ (TELEGRAM_BOT_TOKEN hookEnv ≠ [] ∧ TELEGRAM_CHAT_ID hookEnv ≠ []) ∧
    (voiceNote hookEnv calmWorld 5000 5001
      ⟨.str (utf16 "Ana"), .undefined, .str (utf16 "AAAA"), .undefined⟩ lastEventAt).calls =
      [.checkCooldown .voice,
        .sendWebhookAlert (utf16
          "Voice note received from Ana, but Telegram is not configured for audio delivery.")] ∧
    (voiceNote hookEnv calmWorld 5000 5001
      ⟨.str (utf16 "Ana"), .undefined, .str (utf16 "AAAA"), .undefined⟩ lastEventAt).response =
      Response.success ⟨utf16 "webhook", none⟩ :=
  ⟨by decide, by decide,
    ((voiceNote_degrades_to_text hookEnv calmWorld 5000 5001 lastEventAt (.str (utf16 "Ana"))
      .undefined .undefined (utf16 "AAAA") (utf16 "Ana") (utf16 "audio/webm")
      (by decide) (by decide) (by decide) (by decide) (by decide) (by decide) (by decide)
      (by decide)).2.2.1 (by decide)).1 (by decide)⟩

/-! ## The text of a mood check-in -/

theorem mem_of_lookup_eq_some {key : JSString} {entry : MoodEntry} :
    ∀ {l : List (JSString × MoodEntry)}, l.lookup key = some entry → (key, entry) ∈ l
  | [], h => by simp at h
  | (k, e) :: rest, h => by
    by_cases hk : key = k
    · subst hk
      simp [List.lookup] at h
      simp [h]
    · have hb : (key == k) = false := by simpa using hk
      simp only [List.lookup, hb] at h
      exact List.mem_cons_of_mem _ (mem_of_lookup_eq_some h)

set_option maxRecDepth 100000 in
theorem moodMap_defaultMessage_clean :
    ∀ p ∈ moodMap, slice0 (trim p.2.defaultMessage) 220 = p.2.defaultMessage := by
  decide

set_option maxRecDepth 100000 in
/-- C15 (counterexample): the authorized, non-rate-limited check-in
`{mood: "sad", name: {"toString": 1}}` with no custom message names an
enumerated mood, yet `String(name)` throws at the sanitization of the name:
the answer is 500 and nothing is dispatched. -/
theorem moodCheckin_unconvertible_name_is_500 :
    ensureAuthorized botEnv .undefined = true ∧
    (checkCooldown .mood 5000 lastEventAt).1.ok = true ∧
    (moodMap.lookup (toLowerCase calmWorld (utf16 "sad"))).isSome = true ∧
    moodCheckin botEnv calmWorld 5000
        ⟨.obj [(utf16 "toString", .num (utf16 "1"))], .str (utf16 "sad"), .undefined,
          .undefined⟩ lastEventAt =
      ⟨⟨0, 5000, 0⟩, Response.serverError typeErrorMessage, [.checkCooldown .mood]⟩ ∧
    (Response.serverError typeErrorMessage).status = 500 := by
  refine ⟨by decide, by decide, by decide, ?_, rfl⟩
  decide

/-- C15 (amended): for an authorized, non-rate-limited mood check-in whose mood
resolves to a row of the table, with no custom message and whose name converts
to text, `safeName` being the sanitized name, `dispatchTextAlert` is called
with exactly `Mood Check-in: <safeName> is feeling <label> <emoji>. Message:
<defaultMessage>` built from that row, its invocations are the ones the
handler makes after `checkCooldown`, and its result decides the answer. The emoji and apostrophe are the code units the
source file holds. -/
theorem moodCheckin_default_message_text (env : ProcessEnv) (w : World) (now : Int)
    (reg : Registry) (name mood moodMessage secret : JSValue) (t safeName : JSString)
    (entry : MoodEntry)
    (hauth : ensureAuthorized env secret = true)
    (hcool : cooldownMsByType .mood ≤ now - reg.get .mood)
    (hmood : toStringJS (jsOr mood (.str [])) = .ok t)
    (hentry : moodMap.lookup (toLowerCase w t) = some entry)
    (hmsg : toBoolean moodMessage = false)
    (hname : safeText name (.str (utf16 "Bhaviiii")) 50 = .ok safeName) :
    (moodCheckin env w now ⟨name, mood, moodMessage, secret⟩ reg).calls =
      .checkCooldown .mood ::
        (dispatchTextAlert env w (utf16 "Mood Check-in: " ++ safeName ++ utf16 " is feeling " ++
          entry.label ++ utf16 " " ++ entry.emoji ++ utf16 ". Message: " ++
          entry.defaultMessage)).2 ∧
    (∀ result,
      (dispatchTextAlert env w (utf16 "Mood Check-in: " ++ safeName ++ utf16 " is feeling " ++
          entry.label ++ utf16 " " ++ entry.emoji ++ utf16 ". Message: " ++
          entry.defaultMessage)).1 = .ok result →
      (moodCheckin env w now ⟨name, mood, moodMessage, secret⟩ reg).response =
        Response.success result) ∧
    (∀ e,
      (dispatchTextAlert env w (utf16 "Mood Check-in: " ++ safeName ++ utf16 " is feeling " ++
          entry.label ++ utf16 " " ++ entry.emoji ++ utf16 ". Message: " ++
          entry.defaultMessage)).1 = .error e →
      (moodCheckin env w now ⟨name, mood, moodMessage, secret⟩ reg).response =
        Response.serverError e) := by
  have hc := checkCooldown_of_ge hcool
  have hget : moodMapGet (toLowerCase w t) = .own entry := by simp [moodMapGet, hentry]
  have hclean := moodMap_defaultMessage_clean _ (mem_of_lookup_eq_some hentry)
  have hdefault : safeText moodMessage (.str entry.defaultMessage) 220 =
      .ok entry.defaultMessage := by
    rw [safeText_eq_ok_iff]
    exact ⟨entry.defaultMessage, by simp [jsOr, hmsg, toStringJS], hclean.symm⟩
  have hstep : moodCheckin env w now ⟨name, mood, moodMessage, secret⟩ reg =
      match dispatchTextAlert env w (utf16 "Mood Check-in: " ++ safeName ++
          utf16 " is feeling " ++ entry.label ++ utf16 " " ++ entry.emoji ++
          utf16 ". Message: " ++ entry.defaultMessage) with
      | (.error e, calls) =>
        ⟨reg.set .mood now, Response.serverError e, .checkCooldown .mood :: calls⟩
      | (.ok result, calls) =>
        ⟨reg.set .mood now, Response.success result, .checkCooldown .mood :: calls⟩ := by
    simp only [moodCheckin, hauth, hc, hmood, hget, hname, MoodProperty.defaultMessage,
      MoodProperty.label, MoodProperty.emoji, interpolate, hdefault]
    simp
  rw [hstep]
  rcases hd : dispatchTextAlert env w (utf16 "Mood Check-in: " ++ safeName ++
      utf16 " is feeling " ++ entry.label ++ utf16 " " ++ entry.emoji ++
      utf16 ". Message: " ++ entry.defaultMessage) with ⟨res, calls⟩
  cases res with
  | error e => simp
  | ok result => simp

set_option maxRecDepth 100000 in
/-- Witness for C15 (amended): the body `{mood: "sad", name: "Ana"}` with the bot channel
configured. -/
theorem moodCheckin_default_message_text_witness :
    (moodCheckin botEnv calmWorld 5000
      ⟨.str (utf16 "Ana"), .str (utf16 "sad"), .undefined, .undefined⟩ lastEventAt).calls =
      [.checkCooldown .mood,
        .sendTelegramAlert (utf16 "Mood Check-in: Ana is feeling sad " ++
          [0xF0, 0x178, 0x2DC, 0x201D] ++ utf16 ". Message: I" ++ [0xE2, 0x20AC, 0x2122] ++
          utf16 "m feeling low right now. Please talk to me when free.")] :=
  (moodCheckin_default_message_text botEnv calmWorld 5000 lastEventAt (.str (utf16 "Ana"))
    (.str (utf16 "sad")) .undefined .undefined (utf16 "sad") (utf16 "Ana")
    ⟨utf16 "sad", [0xF0, 0x178, 0x2DC, 0x201D],
      utf16 "I" ++ [0xE2, 0x20AC, 0x2122] ++
        utf16 "m feeling low right now. Please talk to me when free."⟩
    (by decide) (by decide) (by decide) (by decide) (by decide) (by decide)).1.trans
    (by decide)

end AlertRelay
